import Mathlib

/-!
Verification development for the prompt-driven website generator in
`src/src/main.py`.  The Python source is shallowly embedded: Python
strings become Lean `String`s, Python dicts of filenames to contents
become insertion-ordered association lists (`List (String × String)`)
with Python-dict update semantics, the external Gemini completion
interface and the filesystem sink become an explicit environment record,
and the regular expressions of the response parser are translated into
executable character-list scanners with the exact backtracking semantics
of the Python patterns (greedy character classes followed by literal
required characters, leftmost non-overlapping `findall`, leftmost
`search`).  Character classes model the ASCII behaviour of `\w` and
`\s`, which covers every keyword, marker and filename the program
manipulates.
-/

/-! ## Basic string machinery (Python semantics) -/

/-- ASCII lower-casing of one character, as `str.lower` acts on ASCII. -/
def pyLowerChar (c : Char) : Char :=
  if 'A' ≤ c ∧ c ≤ 'Z' then Char.ofNat (c.toNat + 32) else c

/-- ASCII upper-casing of one character, as `str.upper` acts on ASCII. -/
def pyUpperChar (c : Char) : Char :=
  if 'a' ≤ c ∧ c ≤ 'z' then Char.ofNat (c.toNat - 32) else c

/-- Python `str.lower()` (ASCII fragment). -/
def pyLower (s : String) : String := String.mk (s.toList.map pyLowerChar)

/-- Python `str.upper()` (ASCII fragment). -/
def pyUpper (s : String) : String := String.mk (s.toList.map pyUpperChar)

/-- Whitespace characters recognised by Python `str.strip` and the regex
class `\s` (ASCII fragment: space, tab, newline, carriage return,
vertical tab, form feed). -/
def pyWS (c : Char) : Bool :=
  c = ' ' || c = '\t' || c = '\n' || c = '\r' || c = '\x0b' || c = '\x0c'

/-- The regex character class `\w` (ASCII fragment). -/
def isWordChar (c : Char) : Bool :=
  ('a' ≤ c && c ≤ 'z') || ('A' ≤ c && c ≤ 'Z') || ('0' ≤ c && c ≤ '9') || c = '_'

/-- The regex character class `[\w.-]` (ASCII fragment). -/
def isWordDotDash (c : Char) : Bool :=
  isWordChar c || c = '.' || c = '-'

/-- Does `pre` occur at the very start of `l`? -/
def listStartsWith : List Char → List Char → Bool
  | [], _ => true
  | _ :: _, [] => false
  | p :: ps, c :: cs => p = c && listStartsWith ps cs

/-- Does `needle` occur as a contiguous run anywhere in `l`?
This is Python's substring test `needle in haystack`. -/
def listHasSub (needle : List Char) : List Char → Bool
  | [] => listStartsWith needle []
  | c :: rest => listStartsWith needle (c :: rest) || listHasSub needle rest

/-- Python's substring operator `needle in haystack`. -/
def strIn (needle haystack : String) : Bool :=
  listHasSub needle.toList haystack.toList

/-- Number of occurrences of the character `c`, Python's `str.count` for a
single-character argument. -/
def countChar (c : Char) (l : List Char) : Nat :=
  l.foldl (fun n d => if d = c then n + 1 else n) 0

/-- Maximal run of characters satisfying `p` at the front of the list,
together with the remainder: the backtracking-free reading of a greedy
`p*` that is followed in the pattern by a literal not satisfying `p`. -/
def takeRun (p : Char → Bool) : List Char → List Char × List Char
  | [] => ([], [])
  | c :: rest =>
    if p c then
      let r := takeRun p rest
      (c :: r.1, r.2)
    else ([], c :: rest)

/-- Trim trailing `pyWS` characters, via reversal. -/
def trimBack (l : List Char) : List Char :=
  (l.reverse.dropWhile pyWS).reverse

/-- Python `str.strip()` on a character list. -/
def stripList (l : List Char) : List Char :=
  (trimBack l).dropWhile pyWS

/-- Python `str.strip()`. -/
def pyStrip (s : String) : String := String.mk (stripList s.toList)

/-! ## Python-dict association lists

Python dicts preserve insertion order; assigning to an existing key
replaces the value in place, assigning to a fresh key appends. -/

/-- Assignment `d[k] = v` on an insertion-ordered association list. -/
def dictInsert : List (String × String) → String → String → List (String × String)
  | [], k, v => [(k, v)]
  | (k', v') :: rest, k, v =>
    if k' = k then (k, v) :: rest else (k', v') :: dictInsert rest k v

/-- Python `d.update(e)`: fold the entries of `e` into `d` in order. -/
def dictUpdate (d e : List (String × String)) : List (String × String) :=
  e.foldl (fun acc kv => dictInsert acc kv.1 kv.2) d

/-- Python `k in d`. -/
def dictMem (d : List (String × String)) (k : String) : Bool :=
  d.any (fun kv => kv.1 = k)

/-- Lookup returning an option (`d.get(k)` with `None` default). -/
def dictGet? (d : List (String × String)) (k : String) : Option String :=
  (d.find? (fun kv => kv.1 = k)).map Prod.snd

/-- Python `d.get(k, dflt)`. -/
def dictGetD (d : List (String × String)) (k : String) (dflt : String) : String :=
  (dictGet? d k).getD dflt

/-! ## Classifier — `is_data_driven_request` (`src/src/main.py` lines 8–56) -/

/-- Strong backend indicators (`strong_backend_keywords`). -/
def strong_backend_keywords : List String :=
  ["order", "orders", "ordering", "purchase", "buy", "cart", "checkout",
   "user account", "login", "register", "registration", "signup", "authentication",
   "booking", "reservation", "appointment", "schedule",
   "inventory", "manage products", "admin panel", "dashboard",
   "contact form", "form submission", "submit data",
   "crud", "database", "store data", "save data",
   "user management", "payment", "subscription"]

/-- Weak backend indicators (`weak_backend_keywords`). -/
def weak_backend_keywords : List String :=
  ["blog", "post", "posts", "article", "comment",
   "portfolio", "gallery", "showcase",
   "product catalog", "product list"]

/-- Static-website indicators (`static_indicators`). -/
def static_indicators : List String :=
  ["static", "simple", "landing page", "brochure",
   "informational", "about", "showcase", "display"]

/-- Interaction sub-tier keywords (`interaction_keywords`). -/
def interaction_keywords : List String :=
  ["comment", "user", "manage", "add", "edit", "delete", "submit"]

/-- True when some keyword of `kws` occurs as a substring of the
lower-cased prompt. -/
def anyKeywordIn (kws : List String) (prompt : String) : Bool :=
  kws.any (fun k => strIn k (pyLower prompt))

/-- Python `is_data_driven_request(prompt)` — detect whether the request needs a
backend (`src/src/main.py` lines 8–56). -/
def is_data_driven_request (prompt : String) : Bool :=
  if anyKeywordIn strong_backend_keywords prompt then true
  else if anyKeywordIn static_indicators prompt then false
  else if anyKeywordIn weak_backend_keywords prompt then
    anyKeywordIn interaction_keywords prompt
  else false

/-! ## Completeness validator — `validate_generated_files`
(`src/src/main.py` lines 58–92) -/

/-- Python `validate_generated_files(files, is_backend_required)`
(`src/src/main.py` lines 58–92).  Returns `(is_complete, missing_list)`. -/
def validate_generated_files (files : List (String × String))
    (is_backend_required : Bool) : Bool × List String :=
  let has_html := files.any (fun kv => strIn ("html") (pyLower kv.1))
  let has_vue := files.any (fun kv => strIn ("vue") (pyLower kv.1))
  let has_main_js := files.any (fun kv => strIn ("main.js") kv.1)
  let has_css := files.any (fun kv => strIn ("css") (pyLower kv.1))
  let m1 : List String := if !has_html then ["HTML file"] else []
  let m2 : List String :=
    if !has_vue && !has_main_js then ["Vue.js component (App.vue) or main.js"] else []
  let m3 : List String := if !has_css then ["CSS file"] else []
  let mb : List String :=
    if is_backend_required then
      let has_flask := files.any (fun kv =>
        strIn ("app.py") kv.1 ||
          (strIn ("flask") (pyLower kv.2) && strIn ("from flask import") kv.2))
      let has_schema := files.any (fun kv => strIn ("schema.sql") kv.1)
      let has_database := files.any (fun kv => strIn ("database.py") kv.1)
      (if !has_flask then ["Flask backend (app.py)"] else []) ++
        (if !(has_schema || has_database) then
          ["Database files (database.py or schema.sql)"] else [])
    else []
  let missing := m1 ++ m2 ++ m3 ++ mb
  (missing.isEmpty, missing)

/-! ## Response parser — `parse_gemini_response`
(`src/src/main.py` lines 1214–1289)

Each compiled pattern of the Python source is translated into an
executable scanner.  In every pattern a greedy class run (`[\w.-]+`,
`\s*`, `\w+`) is immediately followed by a required literal that the
class does not contain, so greedy matching without backtracking is
exact; the one genuinely backtracking subpattern
(`[\w.-]+\.(?:html|...)`) is translated with its longest-first retry
loop. -/

/-- The literal `**`. -/
def twoStars : List Char := ['*', '*']

/-- The literal three-backtick fence. -/
def fence3 : List Char := ['\x60', '\x60', '\x60']

/-- Expect the literal `pre` at the front, returning the remainder. -/
def expectList (pre l : List Char) : Option (List Char) :=
  if listStartsWith pre l then some (l.drop pre.length) else none

/-- Does `\n```` occur at the very start? -/
def isCloseFenceHere (l : List Char) : Bool :=
  listStartsWith ('\n' :: fence3) l

/-- The non-greedy `(.*?)\n```` of every pattern: split at the first
occurrence of a newline-plus-closing-fence, returning the captured
content and the text after the fence. -/
def splitAtCloseFence : List Char → Option (List Char × List Char)
  | [] => none
  | c :: rest =>
    if isCloseFenceHere (c :: rest) then some ([], (c :: rest).drop 4)
    else
      match splitAtCloseFence rest with
      | some (a, b) => some (c :: a, b)
      | none => none

/-- The fenced-block tail ```` ```(?:\w+)?\n(.*?)\n``` ```` shared by all
patterns: opening fence, optional language tag, newline, then the
non-greedy capture up to the closing fence. -/
def matchFenceBlock (l : List Char) : Option (List Char × List Char) :=
  match expectList fence3 l with
  | none => none
  | some l1 =>
    let r := takeRun isWordChar l1
    match r.2 with
    | c :: l2 => if c = '\n' then splitAtCloseFence l2 else none
    | [] => none

/-- The `\s*\n+` separator before a fence: the maximal whitespace run,
which must be non-empty and end with a newline (the following literal is
a backtick, so the run cannot stop early). -/
def matchWsThenNl (l : List Char) : Option (List Char) :=
  let r := takeRun pyWS l
  match r.1.getLast? with
  | some c => if c = '\n' then some r.2 else none
  | none => none

/-- One attempted match of pattern 1,
`\*\*([\w.-]+)\*\*:?\s*\n+```(?:\w+)?\n(.*?)\n```​`, at the current
position; on success returns `((filename, content), rest)`. -/
def p1At (l : List Char) : Option ((List Char × List Char) × List Char) :=
  match expectList twoStars l with
  | none => none
  | some l1 =>
    let nr := takeRun isWordDotDash l1
    if nr.1.isEmpty then none else
    match expectList twoStars nr.2 with
    | none => none
    | some l3 =>
      let l4 := match l3 with
        | c :: r => if c = ':' then r else l3
        | [] => l3
      match matchWsThenNl l4 with
      | none => none
      | some l5 =>
        match matchFenceBlock l5 with
        | none => none
        | some (content, rest) => some ((nr.1, content), rest)

/-- One attempted match of pattern 2 (as pattern 1 but without the
optional colon). -/
def p2At (l : List Char) : Option ((List Char × List Char) × List Char) :=
  match expectList twoStars l with
  | none => none
  | some l1 =>
    let nr := takeRun isWordDotDash l1
    if nr.1.isEmpty then none else
    match expectList twoStars nr.2 with
    | none => none
    | some l3 =>
      match matchWsThenNl l3 with
      | none => none
      | some l5 =>
        match matchFenceBlock l5 with
        | none => none
        | some (content, rest) => some ((nr.1, content), rest)

/-- One attempted match of pattern 3,
`#{2,3}\s*([\w.-]+)\s*\n+```(?:\w+)?\n(.*?)\n```​`. -/
def p3At (l : List Char) : Option ((List Char × List Char) × List Char) :=
  let l1? : Option (List Char) :=
    if listStartsWith ['#', '#', '#'] l then some (l.drop 3)
    else if listStartsWith ['#', '#'] l then some (l.drop 2)
    else none
  match l1? with
  | none => none
  | some l1 =>
    let wr := takeRun pyWS l1
    let nr := takeRun isWordDotDash wr.2
    if nr.1.isEmpty then none else
    match matchWsThenNl nr.2 with
    | none => none
    | some l5 =>
      match matchFenceBlock l5 with
      | none => none
      | some (content, rest) => some ((nr.1, content), rest)

/-- One attempted match of pattern 4,
`^([\w.-]+):\s*\n+```(?:\w+)?\n(.*?)\n```​` (the `^` anchoring is handled
by its dedicated scan). -/
def p4At (l : List Char) : Option ((List Char × List Char) × List Char) :=
  let nr := takeRun isWordDotDash l
  if nr.1.isEmpty then none else
  match nr.2 with
  | ':' :: l2 =>
    (match matchWsThenNl l2 with
     | none => none
     | some l5 =>
       match matchFenceBlock l5 with
       | none => none
       | some (content, rest) => some ((nr.1, content), rest))
  | _ => none

/-- Leftmost non-overlapping `findall` scan for a position matcher `pAt`:
try each position left to right, and on success continue after the match
(every successful match consumes at least one character, so fuel equal to
the input length is exact). -/
def findallAux (pAt : List Char → Option ((List Char × List Char) × List Char)) :
    Nat → List Char → List (List Char × List Char)
  | 0, _ => []
  | _ + 1, [] => []
  | n + 1, c :: rest =>
    match pAt (c :: rest) with
    | some (pr, l') => pr :: findallAux pAt n l'
    | none => findallAux pAt n rest

/-- The `findall` scan for the MULTILINE-anchored pattern 4: matches are attempted
only at line starts; a match never ends at a line start (the last
consumed character is a backtick). -/
def findallP4Aux : Nat → Bool → List Char → List (List Char × List Char)
  | 0, _, _ => []
  | _ + 1, _, [] => []
  | n + 1, atStart, c :: rest =>
    if atStart then
      match p4At (c :: rest) with
      | some (pr, l') => pr :: findallP4Aux n false l'
      | none => findallP4Aux n (c = '\n') rest
    else findallP4Aux n (c = '\n') rest

/-- The matches of the first of the four strategy-1 patterns that matches
anywhere in the text (`for pattern in patterns: ... break`). -/
def strategy1Matches (text : String) : List (List Char × List Char) :=
  let l := text.toList
  let n := l.length
  match findallAux p1At n l with
  | [] =>
    (match findallAux p2At n l with
     | [] =>
       (match findallAux p3At n l with
        | [] => findallP4Aux n true l
        | ms => ms)
     | ms => ms)
  | ms => ms

/-- Store a list of strategy-1 matches:
`if filename and content.strip(): files[filename.strip()] = content.strip()`. -/
def storeS1 (ms : List (List Char × List Char)) : List (String × String) :=
  ms.foldl (fun fs pr =>
    let filename := String.mk pr.1
    let content := String.mk pr.2
    if filename ≠ "" ∧ pyStrip content ≠ "" then
      dictInsert fs (pyStrip filename) (pyStrip content)
    else fs) []

/-- The file mapping produced by strategy 1 (lines 1233–1239). -/
def strategy1Files (text : String) : List (String × String) :=
  storeS1 (strategy1Matches text)

/-- The recognised extension literals of strategy 2's filename regexes, in
alternation order. -/
def fnExts : List (List Char) :=
  [['h', 't', 'm', 'l'], ['c', 's', 's'], ['j', 's'], ['p', 'y'],
   ['s', 'q', 'l'], ['e', 'n', 'v']]

/-- First extension of `fnExts` occurring literally at the front of `l`
(regex alternation order). -/
def extHere (l : List Char) : Option (List Char) :=
  fnExts.find? (fun e => listStartsWith e l)

/-- Extension alternation without `env`, as used by the section-splitting
lookahead `\w+\.(?:html|css|js|py|sql)`. -/
def extHereNoEnv (l : List Char) : Option (List Char) :=
  (fnExts.take 5).find? (fun e => listStartsWith e l)

/-- The lookahead `(?=\*\*|\#\#|\w+\.(?:html|css|js|py|sql))` of the
section-splitting regex (line 1244). -/
def lookaheadOk (l : List Char) : Bool :=
  listStartsWith twoStars l || listStartsWith ['#', '#'] l ||
    (let r := takeRun isWordChar l
     !r.1.isEmpty &&
       (match r.2 with
        | '.' :: l2 => (extHereNoEnv l2).isSome
        | _ => false))

/-- The split `re.split(r'\n(?=\*\*|\#\#|\w+\.(?:html|css|js|py|sql))', text)`:
cut the text at every newline whose right context satisfies the
lookahead, dropping the newline (the zero-width lookahead keeps the
marker itself in the following section). -/
def splitSectionsAux : Nat → List Char → List Char → List (List Char)
  | 0, acc, rest => [acc.reverse ++ rest]
  | _ + 1, acc, [] => [acc.reverse]
  | n + 1, acc, c :: rest =>
    if c = '\n' && lookaheadOk rest then
      acc.reverse :: splitSectionsAux n [] rest
    else splitSectionsAux n (c :: acc) rest

/-- All sections of the text, in order. -/
def splitSections (l : List Char) : List (List Char) :=
  splitSectionsAux (l.length + 1) [] l

/-- Longest-first retry loop of `[\w.-]+\.(?:html|css|js|py|sql|env)`
anchored inside the maximal `[\w.-]` run `run`: find the largest `k ≥ 1`
such that `run[k] = '.'` and an extension literal follows, and return the
matched text (prefix, dot, extension). -/
def fnTryK (run : List Char) : Nat → Option (List Char)
  | 0 => none
  | k + 1 =>
    if (run.drop (k + 1)).head? = some '.' then
      match extHere (run.drop (k + 2)) with
      | some e => some (run.take (k + 1) ++ '.' :: e)
      | none => fnTryK run k
    else fnTryK run k

/-- One attempted match of `([\w.-]+\.(?:html|css|js|py|sql|env))` at the
current position.  Every character of the match lies inside the maximal
`[\w.-]` run starting here (the dot and the extension letters are all in
the class), so the retries stay inside `run`. -/
def fnMatchAt (l : List Char) : Option (List Char) :=
  let r := takeRun isWordDotDash l
  if r.1.isEmpty then none else fnTryK r.1 (r.1.length - 1)

/-- Leftmost `re.search` scan for the filename regex. -/
def searchFilenameAux : Nat → List Char → Option (List Char)
  | 0, _ => none
  | _ + 1, [] => none
  | n + 1, c :: rest =>
    match fnMatchAt (c :: rest) with
    | some m => some m
    | none => searchFilenameAux n rest

/-- Leftmost `re.search` scan for a fenced code block, returning its
captured content. -/
def searchCodeBlockAux : Nat → List Char → Option (List Char)
  | 0, _ => none
  | _ + 1, [] => none
  | n + 1, c :: rest =>
    match matchFenceBlock (c :: rest) with
    | some (content, _) => some content
    | none => searchCodeBlockAux n rest

/-- Strategy 2 (lines 1242–1253): split into sections, look for a
recognised filename in each section's first 50 characters, and store the
stripped content of the section's first code block under it. -/
def strategy2Add (files : List (String × String)) (text : String) :
    List (String × String) :=
  (splitSections text.toList).foldl (fun fs sec =>
    let window := sec.take 50
    match searchFilenameAux window.length window with
    | none => fs
    | some fname =>
      match searchCodeBlockAux sec.length sec with
      | none => fs
      | some content => dictInsert fs (String.mk fname) (pyStrip (String.mk content))) files

/-- Position matcher for the block-collecting
`findall(r"```(?:\w+)?\n([\s\S]*?)\n```")` of strategy 3, wrapped for
`findallAux` (the filename component is unused). -/
def cbAt (l : List Char) : Option ((List Char × List Char) × List Char) :=
  match matchFenceBlock l with
  | some (content, rest) => some (([], content), rest)
  | none => none

/-- All fenced code blocks of the text, in document order. -/
def codeBlocksOf (text : String) : List (List Char) :=
  (findallAux cbAt text.toList.length text.toList).map Prod.snd

/-- The search `re.search(r"body\s*{", content)` as a Bool. -/
def hasBodyBrace (l : List Char) : Bool :=
  match l with
  | [] => false
  | c :: rest =>
    (if listStartsWith ['b', 'o', 'd', 'y'] (c :: rest) then
      (takeRun pyWS ((c :: rest).drop 4)).2.head? == some (Char.ofNat 123)
    else false) || hasBodyBrace rest

/-- The search `re.search(r"[.#]\w+\s*{", content)` as a Bool. -/
def hasSelectorBrace (l : List Char) : Bool :=
  match l with
  | [] => false
  | c :: rest =>
    ((c = '.' || c = '#') &&
      (let r := takeRun isWordChar rest
       !r.1.isEmpty && (takeRun pyWS r.2).2.head? == some (Char.ofNat 123))) ||
      hasSelectorBrace rest

/-- Content-signature classification of one code block in strategy 3
(lines 1264–1286): the `if/elif` chain in source order, on the stripped
content; returns the inferred filename and the stored content. -/
def classifyBlock (i : Nat) (raw : List Char) : String × String :=
  let content := pyStrip (String.mk raw)
  let cl := content.toList
  if strIn ("<!DOCTYPE html>") content || strIn ("<html>") content then
    ("index.html", content)
  else if strIn ("<template>") content && strIn ("<script>") content &&
      countChar '<' cl > 5 then
    ("App.vue", content)
  else if strIn ("createApp") content ||
      strIn ("import \x7b createApp \x7d") content then
    ("main.js", content)
  else if hasBodyBrace cl || hasSelectorBrace cl then
    ("style.css", content)
  else if strIn ("from flask import") content || strIn ("app = Flask") content then
    ("app.py", content)
  else if strIn ("CREATE TABLE") (pyUpper content) ||
      strIn ("INSERT INTO") (pyUpper content) then
    ("schema.sql", content)
  else if strIn ("import pymysql") content || strIn ("def get_connection") content then
    ("database.py", content)
  else if (strIn ("function") content || strIn ("const") content ||
      strIn ("var") content) && !strIn ("flask") (pyLower content) &&
      !strIn ("createApp") content then
    ("script.js", content)
  else if cl.head? == some '#' || (strIn ("=") content && !(cl.head? == some '<')) then
    (".env.example", content)
  else
    ("file_" ++ Nat.repr (i + 1) ++ ".txt", content)

/-- Strategy 3 (lines 1256–1286): collect every code block and classify
each by content, later blocks overwriting earlier ones that map to the
same inferred filename. -/
def strategy3 (text : String) : List (String × String) :=
  let blocks := codeBlocksOf text
  if blocks.length ≥ 1 then
    blocks.enum.foldl (fun fs ib =>
      let kv := classifyBlock ib.1 ib.2
      dictInsert fs kv.1 kv.2) []
  else []

/-- Python `parse_gemini_response(response_text)` (`src/src/main.py` lines
1214–1289): the three-stage cascade. -/
def parse_gemini_response (response_text : String) : List (String × String) :=
  let files := strategy1Files response_text
  let files := if files.isEmpty then strategy2Add files response_text else files
  let files := if files.isEmpty then strategy3 response_text else files
  files

/-! ## Literal text of the program

The prompt templates and canned fallback contents of
`src/src/main.py`, extracted verbatim (f-strings become concatenation
with their interpolation holes). -/

/-- Literal fragment of the f-string at `src/src/main.py` line 104. -/
def flask_promptP0 : String :=
  "\nCreate a complete Flask backend for: "

/-- Literal fragment of the f-string at `src/src/main.py` line 104. -/
def flask_promptP1 : String :=
  "\n\nGenerate ONLY the app.py file with:\n- Flask application with all necessary imports\n- CORS configuration\n- API endpoints for CRUD operations\n- Database integration using database.py\n- Error handling and validation\n\nFormat your response as:\n**app.py:**\n\x60\x60\x60python\n[Complete Flask code here]\n\x60\x60\x60\n"

/-- The f-string at `src/src/main.py` line 104. -/
def flask_prompt (prompt : String) : String :=
  flask_promptP0 ++ prompt ++ flask_promptP1

/-- Literal fragment of the f-string at `src/src/main.py` line 128. -/
def db_promptP0 : String :=
  "\nCreate database files for: "

/-- Literal fragment of the f-string at `src/src/main.py` line 128. -/
def db_promptP1 : String :=
  "\n\nGenerate these files:\n1. database.py - MySQL connection and helper functions\n2. schema.sql - Complete database schema\n\nUse MySQL settings: host=\x27mysql\x27, user=\x27lovable_user\x27, password=\x27lovable_password\x27, database=\x27lovable_db\x27\n\nFormat your response as:\n**database.py:**\n\x60\x60\x60python\n[Database connection code here]\n\x60\x60\x60\n\n**schema.sql:**\n\x60\x60\x60sql\n[Database schema here]\n\x60\x60\x60\n"

/-- The f-string at `src/src/main.py` line 128. -/
def db_prompt (prompt : String) : String :=
  db_promptP0 ++ prompt ++ db_promptP1

/-- Literal fragment of the f-string at `src/src/main.py` line 155. -/
def js_promptP0 : String :=
  "\nCreate a comprehensive JavaScript file for: "

/-- Literal fragment of the f-string at `src/src/main.py` line 155. -/
def js_promptP1 : String :=
  "\n\nThe script MUST include:\n- DOM event listeners for all forms and buttons\n- Form validation and submission handling\n- Fetch API calls to backend endpoints (if backend exists)\n- Interactive features like animations, modal dialogs, image galleries\n- Error handling and user feedback messages\n- Smooth scrolling and navigation\n- Dynamic content updates\n- Modern ES6+ features where appropriate\n- Mobile-responsive touch interactions\n- Accessibility enhancements\n\nGenerate practical, working JavaScript code that enhances the user experience. Make it substantial (minimum 100+ lines) with proper functionality.\n\nFormat your response as:\n**script.js:**\n\x60\x60\x60javascript\n[Complete functional JavaScript code here - minimum 100 lines with comprehensive features]\n\x60\x60\x60\n"

/-- The f-string at `src/src/main.py` line 155. -/
def js_prompt (prompt : String) : String :=
  js_promptP0 ++ prompt ++ js_promptP1

/-- Canned fallback interactive script (lines 185–229; identical text at lines 1140–1184). -/
def fallback_script : String :=
  "// Enhanced interactivity and modern features for the website\ndocument.addEventListener(\x27DOMContentLoaded\x27, function() \x7b\n    \n    // Initialize modern interaction features\n    initializeAnimations();\n    initializeFormHandling();\n    initializeNavigation();\n    initializeModals();\n    initializeAccessibility();\n    initializeMobileFeatures();\n    \n    // Modern animations with intersection observer\n    function initializeAnimations() \x7b\n        const animatedElements = document.querySelectorAll(\x27.animate-on-scroll, .card, .product-item, .service-item, .feature, .hero\x27);\n        \n        const observer = new IntersectionObserver((entries) => \x7b\n            entries.forEach(entry => \x7b\n                if (entry.isIntersecting) \x7b\n                    entry.target.style.opacity = \x271\x27;\n                    entry.target.style.transform = \x27translateY(0)\x27;\n                \x7d\n            \x7d);\n        \x7d);\n        \n        animatedElements.forEach(el => \x7b\n            el.style.opacity = \x270\x27;\n            el.style.transform = \x27translateY(20px)\x27;\n            el.style.transition = \x27opacity 0.6s ease, transform 0.6s ease\x27;\n            observer.observe(el);\n        \x7d);\n        \n        // Enhanced button hover effects\n        const buttons = document.querySelectorAll(\x27button, .btn, .cta-button, .submit-btn\x27);\n        buttons.forEach(btn => \x7b\n            btn.addEventListener(\x27mouseenter\x27, function() \x7b\n                this.style.transform = \x27translateY(-3px) scale(1.02)\x27;\n                this.style.boxShadow = \x270 10px 30px rgba(0,0,0,0.2)\x27;\n            \x7d);\n            btn.addEventListener(\x27mouseleave\x27, function() \x7b\n                this.style.transform = \x27translateY(0) scale(1)\x27;\n                this.style.boxShadow = \x270 4px 15px rgba(0,0,0,0.1)\x27;\n            \x7d);\n        \x7d);\n    \x7d\n\x7d"

/-- Canned `.env.example` content (lines 234–244). -/
def env_example_text : String :=
  "# Database Configuration\nDB_HOST=mysql\nDB_USER=lovable_user\nDB_PASSWORD=lovable_password\nDB_NAME=lovable_db\n\n# Flask Configuration\nFLASK_ENV=development\nFLASK_DEBUG=1\nSECRET_KEY=your-secret-key-here\n"

/-- Literal fragment of the f-string at `src/src/main.py` line 403. -/
def initial_promptP0 : String :=
  "\nCreate a stunning, modern, FULLY FUNCTIONAL website for: "

/-- Literal fragment of the f-string at `src/src/main.py` line 403. -/
def initial_promptP1 : String :=
  "\n\nüé® DESIGN REQUIREMENTS - MAKE IT STUNNING & MODERN:\n- Use VIBRANT, eye-catching color palettes with rich gradients and depth\n- Implement cutting-edge design trends: glassmorphism, neumorphism, gradient overlays\n- Add bold, colorful gradients with multiple color stops and dynamic effects\n- Use modern typography (Inter, Poppins, Outfit, Space Grotesk)\n- Create strong visual hierarchy with generous whitespace and perfect spacing\n- Add dynamic background effects, animated gradients, and modern textures\n- Ensure the design looks premium, polished, and contemporary (2024+ aesthetic)\n- Use modern CSS features: CSS Grid, Flexbox, custom properties, backdrop-filter\n- Implement smooth micro-interactions and delightful hover states\n- Make it responsive with mobile-first approach\n- Use RICH, SATURATED colors - avoid bland, washed-out palettes\n- Implement color-shifting gradients and dynamic color schemes\n- Add depth with layered shadows and vibrant highlights\n\n‚ö†Ô∏è CRITICAL TECHNICAL REQUIREMENTS:\n- Create a WORKING website using vanilla HTML/CSS/JavaScript ONLY\n- NO framework imports (no Vue.js, React, Angular, etc.)\n- NO \"import\" statements or ES6 modules in JavaScript\n- Use standard HTML with full content visible immediately\n- Use vanilla JavaScript with document.addEventListener(\x27DOMContentLoaded\x27, ...)\n- All functionality must work without any framework dependencies\n\nGenerate these core files (ALL are required):\n- **index.html** - Complete HTML with ALL content (no empty divs)\n- **style.css** - Beautiful, vibrant styling with bold colors and animations\n- **script.js** - Interactive vanilla JavaScript (minimum 100+ lines)\n\nFor the HTML file:\n- Include complete page structure with actual content\n- All content must be in HTML, not loaded by JavaScript\n- Use semantic HTML5 elements (header, main, section, footer)\n- Include all text, headings, and content relevant to: "

/-- Literal fragment of the f-string at `src/src/main.py` line 403. -/
def initial_promptP2 : String :=
  "\n- Reference only style.css and script.js files\n\nFor the CSS file:\n- VIBRANT color schemes with rich, saturated colors\n- Multiple gradient overlays with color-shifting effects\n- Dynamic shadows with colored shadows and depth\n- Smooth transitions, transforms, and modern hover interactions\n- CSS Grid and Flexbox for perfect responsive layouts\n- Custom CSS animations and keyframes\n- Modern button designs with colorful glass/neumorphic effects\n- Contemporary typography and professional spacing\n\nFor the JavaScript file:\n- Use vanilla JavaScript only (no frameworks)\n- DOM event listeners and interactive features\n- Smooth animations and transitions\n- Form handling and validation (if applicable)\n- Dynamic content updates and user interactions\n- Modern ES6+ features (but NO imports/modules)\n- Comprehensive functionality (minimum 100+ lines)\n\nMake it a premium, visually striking website that WORKS immediately when opened!\n\nFormat your response as:\n**index.html:**\n\x60\x60\x60html\n[Complete HTML with all content - NO framework dependencies]\n\x60\x60\x60\n\n**style.css:**\n\x60\x60\x60css\n[Vibrant, modern CSS with bold colors]\n\x60\x60\x60\n\n**script.js:**\n\x60\x60\x60javascript\n[Comprehensive vanilla JavaScript - minimum 100 lines]\n\x60\x60\x60\n"

/-- The f-string at `src/src/main.py` line 403. -/
def initial_prompt (prompt : String) : String :=
  initial_promptP0 ++ prompt ++ initial_promptP1 ++ prompt ++ initial_promptP2

/-- Flower-shop title (line 532). -/
def flowerTitle : String :=
  "Bloom & Petals - Premium Flower Shop"

/-- Flower-shop hero text (line 533). -/
def flowerHero : String :=
  "Beautiful Flowers for Every Occasion"

/-- Flower-shop content body (lines 534–591). -/
def flowerBody : String :=
  "\n    <section class=\"featured-flowers\">\n        <div class=\"container\">\n            <h2 class=\"section-title\">Featured Flowers</h2>\n            <div class=\"flower-grid\">\n                <div class=\"flower-card glass-effect\">\n                    <div class=\"flower-image\">üåπ</div>\n                    <h3>Premium Roses</h3>\n                    <p class=\"price\">$25.99</p>\n                    <button class=\"add-to-cart-btn\" onclick=\"addToCart(\x27roses\x27, 25.99)\">Add to Cart</button>\n                </div>\n                <div class=\"flower-card glass-effect\">\n                    <div class=\"flower-image\">üå∑</div>\n                    <h3>Fresh Tulips</h3>\n                    <p class=\"price\">$18.99</p>\n                    <button class=\"add-to-cart-btn\" onclick=\"addToCart(\x27tulips\x27, 18.99)\">Add to Cart</button>\n                </div>\n                <div class=\"flower-card glass-effect\">\n                    <div class=\"flower-image\">üå∫</div>\n                    <h3>Exotic Lilies</h3>\n                    <p class=\"price\">$32.99</p>\n                    <button class=\"add-to-cart-btn\" onclick=\"addToCart(\x27lilies\x27, 32.99)\">Add to Cart</button>\n                </div>\n            </div>\n        </div>\n    </section>\n    \n    <section class=\"order-section\">\n        <div class=\"container\">\n            <h2 class=\"section-title\">Your Order</h2>\n            <div class=\"order-container\">\n                <div class=\"cart-display glass-effect\">\n                    <h3>Shopping Cart</h3>\n                    <div id=\"cartItems\" class=\"cart-items\">\n                        <p class=\"empty-cart\">Your cart is empty</p>\n                    </div>\n                    <div id=\"cartTotal\" class=\"cart-total\">Total: $0.00</div>\n                </div>\n                \n                <form class=\"order-form glass-effect\" id=\"orderForm\">\n                    <h3>Customer Information</h3>\n                    <div class=\"form-group\">\n                        <label for=\"customerName\">Full Name</label>\n                        <input type=\"text\" id=\"customerName\" name=\"customerName\" required>\n                    </div>\n                    <div class=\"form-group\">\n                        <label for=\"customerEmail\">Email</label>\n                        <input type=\"email\" id=\"customerEmail\" name=\"customerEmail\" required>\n                    </div>\n                    <div class=\"form-group\">\n                        <label for=\"deliveryAddress\">Delivery Address</label>\n                        <textarea id=\"deliveryAddress\" name=\"deliveryAddress\" rows=\"3\" required></textarea>\n                    </div>\n                    <button type=\"submit\" class=\"submit-btn\" id=\"submitOrder\" disabled>Place Order</button>\n                </form>\n            </div>\n        </div>\n    </section>"

/-- Generic title (line 593). -/
def genericTitle : String :=
  "Modern Website"

/-- Generic hero text (line 594). -/
def genericHero : String :=
  "Welcome to Our Amazing Website"

/-- Generic content body (lines 595–612). -/
def genericBody : String :=
  "\n    <section class=\"features-section\">\n        <div class=\"container\">\n            <h2 class=\"section-title\">Amazing Features</h2>\n            <div class=\"features-grid\">\n                <div class=\"feature-card glass-effect\">\n                    <div class=\"feature-icon\">üöÄ</div>\n                    <h3>Lightning Fast</h3>\n                    <p>Built with modern technology</p>\n                </div>\n                <div class=\"feature-card glass-effect\">\n                    <div class=\"feature-icon\">üé®</div>\n                    <h3>Beautiful Design</h3>\n                    <p>Modern aesthetics with vibrant gradients</p>\n                </div>\n            </div>\n        </div>\n    </section>"

/-- Literal fragment of the f-string at `src/src/main.py` line 614. -/
def synthIndexHtmlP0 : String :=
  "<!DOCTYPE html>\n<html lang=\"en\">\n<head>\n    <meta charset=\"UTF-8\">\n    <meta name=\"viewport\" content=\"width=device-width, initial-scale=1.0\">\n    <title>"

/-- Literal fragment of the f-string at `src/src/main.py` line 614. -/
def synthIndexHtmlP1 : String :=
  "</title>\n    <link rel=\"preconnect\" href=\"https://fonts.googleapis.com\">\n    <link rel=\"preconnect\" href=\"https://fonts.gstatic.com\" crossorigin>\n    <link href=\"https://fonts.googleapis.com/css2?family=Inter:wght@300;400;500;600;700&family=Poppins:wght@300;400;500;600;700&display=swap\" rel=\"stylesheet\">\n    <link rel=\"stylesheet\" href=\"style.css\">\n</head>\n<body>\n    <header class=\"hero-section\">\n        <h1 class=\"hero-title gradient-text\">"

/-- Literal fragment of the f-string at `src/src/main.py` line 614. -/
def synthIndexHtmlP2 : String :=
  "</h1>\n        <p class=\"hero-subtitle\">Premium fresh flowers delivered with love</p>\n        <button class=\"cta-button\" onclick=\"showWelcome()\">Explore Our Shop</button>\n    </header>\n\n    <main class=\"main-content\">\n        "

/-- Literal fragment of the f-string at `src/src/main.py` line 614. -/
def synthIndexHtmlP3 : String :=
  "\n    </main>\n\n    <footer class=\"footer\">\n        <div class=\"container\">\n            <p>&copy; 2024 "

/-- Literal fragment of the f-string at `src/src/main.py` line 614. -/
def synthIndexHtmlP4 : String :=
  ". All rights reserved.</p>\n        </div>\n    </footer>\n\n    <script src=\"script.js\"></script>\n</body>\n</html>"

/-- The f-string at `src/src/main.py` line 614. -/
def synthIndexHtml (title : String) (hero_text : String) (content_body : String) : String :=
  synthIndexHtmlP0 ++ title ++ synthIndexHtmlP1 ++ hero_text ++ synthIndexHtmlP2 ++ content_body ++ synthIndexHtmlP3 ++ title ++ synthIndexHtmlP4

/-- Synthesized `App.vue` content (lines 646–1071). -/
def appVueContent : String :=
  "<template>\n  <div id=\"app\" class=\"app-container\">\n    <!-- Dynamic background -->\n    <div class=\"animated-bg\">\n      <div class=\"gradient-orb orb-1\"></div>\n      <div class=\"gradient-orb orb-2\"></div>\n      <div class=\"gradient-orb orb-3\"></div>\n    </div>\n\n    <!-- Main content -->\n    <div class=\"content-wrapper\">\n      <header class=\"hero-section\">\n        <h1 class=\"hero-title gradient-text animate-slide-up\">\n          \x7b\x7b title \x7d\x7d\n        </h1>\n        <p class=\"hero-subtitle animate-fade-in\">\n          \x7b\x7b subtitle \x7d\x7d\n        </p>\n        <button \n          @click=\"toggleMode\" \n          class=\"cta-button animate-bounce\"\n          :class=\"\x7b active: isActive \x7d\"\n        >\n          <span class=\"button-content\">\n            <span class=\"icon\">\x7b\x7b isActive ? \x27üåô\x27 : \x27üåü\x27 \x7d\x7d</span>\n            \x7b\x7b buttonText \x7d\x7d\n          </span>\n        </button>\n      </header>\n\n      <!-- Feature cards -->\n      <section class=\"features-grid\">\n        <div \n          v-for=\"(feature, index) in features\" \n          :key=\"index\"\n          class=\"feature-card glass-effect\"\n          :style=\"\x7b animationDelay: index * 0.1 + \x27s\x27 \x7d\"\n          @mouseenter=\"onCardHover(index)\"\n          @mouseleave=\"onCardLeave(index)\"\n        >\n          <div class=\"card-icon\">\x7b\x7b feature.icon \x7d\x7d</div>\n          <h3 class=\"card-title\">\x7b\x7b feature.title \x7d\x7d</h3>\n          <p class=\"card-description\">\x7b\x7b feature.description \x7d\x7d</p>\n          <div class=\"card-accent\" :class=\"\x60accent-$\x7bindex + 1\x7d\x60\"></div>\n        </div>\n      </section>\n\n      <!-- Interactive counter -->\n      <section class=\"interactive-section\">\n        <div class=\"counter-container glass-effect\">\n          <h3>Interactive Counter</h3>\n          <div class=\"counter-display\">\n            <span class=\"counter-number gradient-text\">\x7b\x7b counter \x7d\x7d</span>\n          </div>\n          <div class=\"counter-controls\">\n            <button @click=\"decrement\" class=\"counter-btn minus\">-</button>\n            <button @click=\"increment\" class=\"counter-btn plus\">+</button>\n          </div>\n        </div>\n      </section>\n    </div>\n  </div>\n</template>\n\n<script>\nimport \x7b ref, computed, onMounted \x7d from \x27vue\x27\n\nexport default \x7b\n  name: \x27App\x27,\n  setup() \x7b\n    const title = ref(\x27Welcome to the Future\x27)\n    const subtitle = ref(\x27Experience cutting-edge design with vibrant colors and smooth animations\x27)\n    const isActive = ref(false)\n    const counter = ref(0)\n    \n    const features = ref([\n      \x7b\n        icon: \x27üöÄ\x27,\n        title: \x27Lightning Fast\x27,\n        description: \x27Built with Vue 3 for optimal performance\x27\n      \x7d,\n      \x7b\n        icon: \x27üé®\x27,\n        title: \x27Beautiful Design\x27,\n        description: \x27Modern aesthetics with vibrant gradients\x27\n      \x7d,\n      \x7b\n        icon: \x27üì±\x27,\n        title: \x27Responsive\x27,\n        description: \x27Perfect on every device and screen size\x27\n      \x7d,\n      \x7b\n        icon: \x27‚ö°\x27,\n        title: \x27Interactive\x27,\n        description: \x27Engaging animations and smooth transitions\x27\n      \x7d\n    ])\n\n    const buttonText = computed(() => \x7b\n      return isActive.value ? \x27Night Mode\x27 : \x27Bright Mode\x27\n    \x7d)\n\n    const toggleMode = () => \x7b\n      isActive.value = !isActive.value\n      document.body.classList.toggle(\x27dark-mode\x27)\n    \x7d\n\n    const increment = () => \x7b\n      counter.value++\n    \x7d\n\n    const decrement = () => \x7b\n      if (counter.value > 0) counter.value--\n    \x7d\n\n    const onCardHover = (index) => \x7b\n      console.log(\x60Hovering card $\x7bindex\x7d\x60)\n    \x7d\n\n    const onCardLeave = (index) => \x7b\n      console.log(\x60Left card $\x7bindex\x7d\x60)\n    \x7d\n\n    onMounted(() => \x7b\n      // Add entrance animations\n      const cards = document.querySelectorAll(\x27.feature-card\x27)\n      cards.forEach((card, index) => \x7b\n        card.style.animationDelay = \x60$\x7bindex * 0.2\x7ds\x60\n      \x7d)\n    \x7d)\n\n    return \x7b\n      title,\n      subtitle,\n      isActive,\n      counter,\n      features,\n      buttonText,\n      toggleMode,\n      increment,\n      decrement,\n      onCardHover,\n      onCardLeave\n    \x7d\n  \x7d\n\x7d\n</script>\n\n<style scoped>\n/* Import global animations */\n@import url(\x27./style.css\x27);\n\n.app-container \x7b\n  min-height: 100vh;\n  position: relative;\n  overflow: hidden;\n  background: linear-gradient(135deg, #667eea 0%, #764ba2 100%);\n\x7d\n\n.animated-bg \x7b\n  position: absolute;\n  top: 0;\n  left: 0;\n  width: 100%;\n  height: 100%;\n  pointer-events: none;\n  z-index: 1;\n\x7d\n\n.gradient-orb \x7b\n  position: absolute;\n  border-radius: 50%;\n  opacity: 0.6;\n  animation: float 8s ease-in-out infinite;\n\x7d\n\n.orb-1 \x7b\n  width: 300px;\n  height: 300px;\n  background: radial-gradient(circle, #ff6b6b, #ee5a24);\n  top: 10%;\n  left: 10%;\n  animation-delay: 0s;\n\x7d\n\n.orb-2 \x7b\n  width: 200px;\n  height: 200px;\n  background: radial-gradient(circle, #4ecdc4, #44a08d);\n  top: 50%;\n  right: 10%;\n  animation-delay: 2s;\n\x7d\n\n.orb-3 \x7b\n  width: 250px;\n  height: 250px;\n  background: radial-gradient(circle, #ffa726, #fb8c00);\n  bottom: 10%;\n  left: 50%;\n  animation-delay: 4s;\n\x7d\n\n.content-wrapper \x7b\n  position: relative;\n  z-index: 2;\n  padding: 2rem;\n  max-width: 1200px;\n  margin: 0 auto;\n\x7d\n\n.hero-section \x7b\n  text-align: center;\n  padding: 4rem 0;\n\x7d\n\n.hero-title \x7b\n  font-size: clamp(3rem, 8vw, 5rem);\n  font-weight: 700;\n  margin-bottom: 1.5rem;\n  line-height: 1.2;\n\x7d\n\n.gradient-text \x7b\n  background: linear-gradient(135deg, #ff6b6b, #ffa726, #4ecdc4, #667eea);\n  background-size: 400% 400%;\n  -webkit-background-clip: text;\n  -webkit-text-fill-color: transparent;\n  background-clip: text;\n  animation: gradient-shift 3s ease infinite;\n\x7d\n\n.hero-subtitle \x7b\n  font-size: 1.3rem;\n  color: rgba(255, 255, 255, 0.9);\n  margin-bottom: 3rem;\n  max-width: 600px;\n  margin-left: auto;\n  margin-right: auto;\n\x7d\n\n.cta-button \x7b\n  padding: 1.2rem 3rem;\n  border: none;\n  border-radius: 50px;\n  background: linear-gradient(135deg, #ff6b6b 0%, #ee5a24 100%);\n  color: white;\n  font-size: 1.2rem;\n  font-weight: 600;\n  cursor: pointer;\n  transition: all 0.3s ease;\n  position: relative;\n  overflow: hidden;\n\x7d\n\n.cta-button:hover \x7b\n  transform: translateY(-3px) scale(1.05);\n  box-shadow: 0 15px 35px rgba(255, 107, 107, 0.4);\n\x7d\n\n.cta-button.active \x7b\n  background: linear-gradient(135deg, #4ecdc4 0%, #44a08d 100%);\n\x7d\n\n.button-content \x7b\n  display: flex;\n  align-items: center;\n  gap: 0.5rem;\n\x7d\n\n.features-grid \x7b\n  display: grid;\n  grid-template-columns: repeat(auto-fit, minmax(280px, 1fr));\n  gap: 2rem;\n  margin: 4rem 0;\n\x7d\n\n.feature-card \x7b\n  padding: 2rem;\n  border-radius: 20px;\n  backdrop-filter: blur(20px);\n  background: rgba(255, 255, 255, 0.1);\n  border: 1px solid rgba(255, 255, 255, 0.2);\n  position: relative;\n  transition: all 0.3s ease;\n  animation: slide-up 0.8s ease forwards;\n  opacity: 0;\n  transform: translateY(30px);\n\x7d\n\n.feature-card:hover \x7b\n  transform: translateY(-10px) scale(1.02);\n  box-shadow: 0 20px 40px rgba(0, 0, 0, 0.2);\n\x7d\n\n.card-icon \x7b\n  font-size: 3rem;\n  margin-bottom: 1rem;\n\x7d\n\n.card-title \x7b\n  font-size: 1.5rem;\n  font-weight: 600;\n  color: white;\n  margin-bottom: 1rem;\n\x7d\n\n.card-description \x7b\n  color: rgba(255, 255, 255, 0.8);\n  line-height: 1.6;\n\x7d\n\n.card-accent \x7b\n  position: absolute;\n  bottom: 0;\n  left: 0;\n  right: 0;\n  height: 4px;\n  border-radius: 0 0 20px 20px;\n\x7d\n\n.accent-1 \x7b background: linear-gradient(90deg, #ff6b6b, #ee5a24); \x7d\n.accent-2 \x7b background: linear-gradient(90deg, #4ecdc4, #44a08d); \x7d\n.accent-3 \x7b background: linear-gradient(90deg, #ffa726, #fb8c00); \x7d\n.accent-4 \x7b background: linear-gradient(90deg, #667eea, #764ba2); \x7d\n\n.interactive-section \x7b\n  display: flex;\n  justify-content: center;\n  margin: 4rem 0;\n\x7d\n\n.counter-container \x7b\n  padding: 3rem;\n  border-radius: 20px;\n  text-align: center;\n  backdrop-filter: blur(20px);\n  background: rgba(255, 255, 255, 0.1);\n  border: 1px solid rgba(255, 255, 255, 0.2);\n\x7d\n\n.counter-container h3 \x7b\n  color: white;\n  font-size: 1.5rem;\n  margin-bottom: 2rem;\n\x7d\n\n.counter-display \x7b\n  margin: 2rem 0;\n\x7d\n\n.counter-number \x7b\n  font-size: 4rem;\n  font-weight: 700;\n\x7d\n\n.counter-controls \x7b\n  display: flex;\n  gap: 1rem;\n  justify-content: center;\n\x7d\n\n.counter-btn \x7b\n  width: 60px;\n  height: 60px;\n  border: none;\n  border-radius: 50%;\n  font-size: 2rem;\n  font-weight: 700;\n  cursor: pointer;\n  transition: all 0.3s ease;\n  color: white;\n\x7d\n\n.counter-btn.plus \x7b\n  background: linear-gradient(135deg, #4ecdc4, #44a08d);\n\x7d\n\n.counter-btn.minus \x7b\n  background: linear-gradient(135deg, #ff6b6b, #ee5a24);\n\x7d\n\n.counter-btn:hover \x7b\n  transform: scale(1.1);\n  box-shadow: 0 5px 15px rgba(0, 0, 0, 0.3);\n\x7d\n\n/* Animations */\n@keyframes float \x7b\n  0%, 100% \x7b transform: translateY(0px) rotate(0deg); \x7d\n  33% \x7b transform: translateY(-30px) rotate(5deg); \x7d\n  66% \x7b transform: translateY(-20px) rotate(-5deg); \x7d\n\x7d\n\n@keyframes gradient-shift \x7b\n  0%, 100% \x7b background-position: 0% 50%; \x7d\n  50% \x7b background-position: 100% 50%; \x7d\n\x7d\n\n@keyframes slide-up \x7b\n  to \x7b\n    opacity: 1;\n    transform: translateY(0);\n  \x7d\n\x7d\n\n/* Responsive */\n@media (max-width: 768px) \x7b\n  .content-wrapper \x7b\n    padding: 1rem;\n  \x7d\n  \n  .hero-section \x7b\n    padding: 2rem 0;\n  \x7d\n  \n  .features-grid \x7b\n    grid-template-columns: 1fr;\n    gap: 1rem;\n  \x7d\n  \n  .counter-container \x7b\n    padding: 2rem;\n  \x7d\n\x7d\n</style>"

/-- Synthesized `main.js` content (lines 1073–1136). -/
def mainJsContent : String :=
  "const \x7b createApp \x7d = Vue\n\ncreateApp(\x7b\n  data() \x7b\n    return \x7b\n      title: \x27Welcome to the Future\x27,\n      subtitle: \x27Experience cutting-edge design with vibrant colors and smooth animations\x27,\n      isActive: false,\n      counter: 0,\n      features: [\n        \x7b\n          icon: \x27üöÄ\x27,\n          title: \x27Lightning Fast\x27,\n          description: \x27Built with Vue 3 for optimal performance\x27\n        \x7d,\n        \x7b\n          icon: \x27üé®\x27,\n          title: \x27Beautiful Design\x27,\n          description: \x27Modern aesthetics with vibrant gradients\x27\n        \x7d,\n        \x7b\n          icon: \x27üì±\x27,\n          title: \x27Responsive\x27,\n          description: \x27Perfect on every device and screen size\x27\n        \x7d,\n        \x7b\n          icon: \x27‚ö°\x27,\n          title: \x27Interactive\x27,\n          description: \x27Engaging animations and smooth transitions\x27\n        \x7d\n      ]\n    \x7d\n  \x7d,\n  computed: \x7b\n    buttonText() \x7b\n      return this.isActive ? \x27Night Mode\x27 : \x27Bright Mode\x27\n    \x7d\n  \x7d,\n  methods: \x7b\n    toggleMode() \x7b\n      this.isActive = !this.isActive\n      document.body.classList.toggle(\x27dark-mode\x27)\n    \x7d,\n    increment() \x7b\n      this.counter++\n    \x7d,\n    decrement() \x7b\n      if (this.counter > 0) this.counter--\n    \x7d,\n    onCardHover(index) \x7b\n      console.log(\x60Hovering card $\x7bindex\x7d\x60)\n    \x7d,\n    onCardLeave(index) \x7b\n      console.log(\x60Left card $\x7bindex\x7d\x60)\n    \x7d\n  \x7d,\n  mounted() \x7b\n    // Add entrance animations\n    const cards = document.querySelectorAll(\x27.feature-card\x27)\n    cards.forEach((card, index) => \x7b\n      card.style.animationDelay = \x60$\x7bindex * 0.2\x7ds\x60\n    \x7d)\n  \x7d\n\x7d).mount(\x27#app\x27)"


/-! ## Generation orchestrator — `create_website` and
`generate_missing_files` (`src/src/main.py` lines 94–251 and 253–1212)

The external world is an explicit environment: `complete` is the Gemini
completion interface (`model.generate_content(p).text`, with `.error`
standing for a raised exception and `.ok ""` for an empty response), and
`writeFail` makes the filesystem sink raise on the first write attempt
when set.  The API-key configuration step is modelled as succeeding, and
the `../output` directory as empty (its contents only feed the unused
`prompt_with_context` variable, so they cannot influence any result). -/

/-- The external collaborators of one orchestration run. -/
structure Env where
  complete : String → Except String String
  writeFail : Option String

/-- Result of `create_website`: either `{"files": [...]}` or
`{"error": ...}`. -/
inductive CWResult where
  | files (names : List String)
  | error (msg : String)
deriving DecidableEq, Repr

/-- One targeted-generation step of `generate_missing_files` for a single
missing-requirement label (`src/src/main.py` lines 100–249), updating the
accumulated `generated_files`.  A completion exception skips the label
(`except ... continue`). -/
def genOne (env : Env) (prompt : String) (label : String)
    (acc : List (String × String)) : List (String × String) :=
  if strIn ("Flask backend") label then
    match env.complete (flask_prompt prompt) with
    | .error _ => acc
    | .ok t =>
      let fs := parse_gemini_response t
      match dictGet? fs ("app.py") with
      | some v => dictInsert acc ("app.py") v
      | none => acc
  else if strIn ("Database files") label then
    match env.complete (db_prompt prompt) with
    | .error _ => acc
    | .ok t => dictUpdate acc (parse_gemini_response t)
  else if strIn ("script.js") label || strIn ("JavaScript") label then
    match env.complete (js_prompt prompt) with
    | .error _ => acc
    | .ok t =>
      let fs := parse_gemini_response t
      match dictGet? fs ("script.js") with
      | some v =>
        if v.length > 200 then dictInsert acc ("script.js") v
        else dictInsert acc ("script.js") fallback_script
      | none => dictInsert acc ("script.js") fallback_script
  else if strIn (".env.example") label then
    dictInsert acc (".env.example") env_example_text
  else acc

/-- Python `generate_missing_files(prompt, existing_files, missing_files, model)`
(`src/src/main.py` lines 94–251).  The `existing_files` parameter is
accepted and ignored, exactly as in the source. -/
def generate_missing_files (env : Env) (prompt : String)
    (_existing_files : List (String × String)) (missing_files : List String) :
    List (String × String) :=
  missing_files.foldl (fun acc label => genOne env prompt label acc) []

/-- Number of completion-interface invocations `genOne` performs for one
missing-requirement label: one for the Flask, Database and script
branches, none for the canned `.env.example` branch or an unrecognised
label. -/
def gmfCallsOne (label : String) : Nat :=
  if strIn ("Flask backend") label then 1
  else if strIn ("Database files") label then 1
  else if strIn ("script.js") label || strIn ("JavaScript") label then 1
  else 0

/-- Completion-interface invocations of one whole
`generate_missing_files` call. -/
def gmfCalls (missing_files : List String) : Nat :=
  (missing_files.map gmfCallsOne).sum

/-- The gap-filling loop of `create_website`
(`src/src/main.py` lines 493–511), with the `range(3)` bound as explicit
fuel: validate, stop when valid, otherwise generate the missing pieces,
stop when that round returns nothing, otherwise merge and repeat. -/
def gapFill (env : Env) (prompt : String) :
    Nat → List (String × String) → List (String × String)
  | 0, files => files
  | n + 1, files =>
    let vr := validate_generated_files files true
    if vr.1 then files
    else
      let additional := generate_missing_files env prompt files vr.2
      if additional.isEmpty then files
      else gapFill env prompt n (dictUpdate files additional)

/-- Number of gap-filling rounds the loop executes (rounds in which
`generate_missing_files` is invoked). -/
def gapRounds (env : Env) (prompt : String) :
    Nat → List (String × String) → Nat
  | 0, _ => 0
  | n + 1, files =>
    let vr := validate_generated_files files true
    if vr.1 then 0
    else
      let additional := generate_missing_files env prompt files vr.2
      if additional.isEmpty then 1
      else 1 + gapRounds env prompt n (dictUpdate files additional)

/-- The `has_broken_vue` detection of `create_website`
(`src/src/main.py` lines 521–525). -/
def has_broken_vue (files : List (String × String)) : Bool :=
  (dictMem files ("main.js") &&
    (strIn ("createApp") (dictGetD files ("main.js") "") ||
      strIn ("Vue") (dictGetD files ("main.js") ""))) ||
  dictMem files ("App.vue") ||
  (strIn ("<div id=\"app\"></div>") (dictGetD files ("index.html") "") &&
    (dictGetD files ("index.html") "").length < 1000)

/-- The condition guarding the wholesale vanilla-HTML fallback
(`src/src/main.py` line 527). -/
def fallbackCond (files : List (String × String)) : Bool :=
  has_broken_vue files || !dictMem files ("script.js") ||
    (dictGetD files ("script.js") "").length < 200

/-- The synthesized static `index.html` for a prompt: the flower-shop
variant when the lower-cased prompt mentions `flower` or `shop`, else the
generic variant (`src/src/main.py` lines 531–644). -/
def synthSiteFor (prompt : String) : String :=
  if strIn ("flower") (pyLower prompt) || strIn ("shop") (pyLower prompt) then
    synthIndexHtml flowerTitle flowerHero flowerBody
  else
    synthIndexHtml genericTitle genericHero genericBody

/-- The finalization stage of `create_website`
(`src/src/main.py` lines 521–1184): replace broken or missing interactive
output by the synthesized static site plus the framework skeleton files,
or an undersized `script.js` by the canned fallback script (a branch the
first condition subsumes). -/
def finalize (prompt : String) (files : List (String × String)) :
    List (String × String) :=
  if fallbackCond files then
    let files := dictInsert files ("index.html") (synthSiteFor prompt)
    let files := dictInsert files ("App.vue") appVueContent
    dictInsert files ("main.js") mainJsContent
  else if dictMem files ("script.js") &&
      (dictGetD files ("script.js") "").length < 200 then
    dictInsert files ("script.js") fallback_script
  else files

/-- Python `create_website(prompt)` (`src/src/main.py` lines 253–1212): classify,
invoke the completion interface once on the initial prompt (exception or
empty response is fatal), parse, gap-fill when a backend is required,
finalize, and write every file of the working mapping to the sink. -/
def create_website (env : Env) (prompt : String) : CWResult :=
  let requires_backend := is_data_driven_request prompt
  match env.complete (initial_prompt prompt) with
  | .error e => .error ("Gemini AI generation failed: " ++ e)
  | .ok t =>
    if t = "" then .error ("No response received from Gemini AI. Please try again.")
    else
      let files0 := parse_gemini_response t
      let files1 := if requires_backend then gapFill env prompt 3 files0 else files0
      let files2 := finalize prompt files1
      if files2.isEmpty then .error ("Could not generate any files. Please try again.")
      else
        match env.writeFail with
        | some e => .error ("Failed to write files: " ++ e)
        | none => .files (files2.map Prod.fst)

/-- The filenames actually written to the output directory by one
`create_website` run: nothing before the initial completion call
succeeds, nothing on any error path, and every file of the final working
mapping otherwise (`writeFail` makes the sink raise on the first write
attempt, so nothing is written then either). -/
def createWebsiteWritten (env : Env) (prompt : String) : List String :=
  let requires_backend := is_data_driven_request prompt
  match env.complete (initial_prompt prompt) with
  | .error _ => []
  | .ok t =>
    if t = "" then []
    else
      let files0 := parse_gemini_response t
      let files1 := if requires_backend then gapFill env prompt 3 files0 else files0
      let files2 := finalize prompt files1
      if files2.isEmpty then []
      else
        match env.writeFail with
        | some _ => []
        | none => files2.map Prod.fst

/-! ## Renderers for the round-trip law (claim C4)

Two marker formats occur in the program's prompts.  The initial
generation prompt (lines 462–477) requests `**filename:**` — the colon
inside the asterisks — followed by a fenced block with a language hint;
the continuation prompt (line 287) embeds files as `**filename**:` — the
colon outside — followed by an untagged fenced block. -/

/-- Modelled from the spec: the language hint the initial generation
prompt attaches to each requested file's fence (`html`, `css`,
`javascript`, `python`, `sql`, nothing for `.env.example`). -/
def langTagFor (filename : String) : String :=
  if strIn (".html") filename then ("html")
  else if strIn (".css") filename then ("css")
  else if strIn (".js") filename then ("javascript")
  else if strIn (".py") filename then ("python")
  else if strIn (".sql") filename then ("sql")
  else ("")

/-- Modelled from the spec: one file rendered in the marker/fence format
the initial generation prompt requests — `**filename:**` then a fenced
block tagged with a language hint (`src/src/main.py` lines 462–477). -/
def renderInitialBlock (filename content : String) : String :=
  "**" ++ filename ++ ":**\n" ++ "\x60\x60\x60" ++ langTagFor filename ++ "\n" ++
    content ++ "\n" ++ "\x60\x60\x60"

/-- Modelled from the spec: a whole mapping rendered in the initial
prompt's format, blocks separated by blank lines. -/
def render_initial_format : List (String × String) → String
  | [] => ""
  | [kv] => renderInitialBlock kv.1 kv.2
  | kv :: rest => renderInitialBlock kv.1 kv.2 ++ "\n\n" ++ render_initial_format rest

/-- One file rendered in the continuation-prompt format of
`src/src/main.py` line 287: `f"**{filename}**:\n‌```\n{content}\n‌```\n\n"`. -/
def renderBlock (filename content : String) : String :=
  "**" ++ filename ++ "**:\n" ++ "\x60\x60\x60" ++ "\n" ++ content ++ "\n" ++
    "\x60\x60\x60" ++ "\n\n"

/-- A whole mapping rendered in the continuation-prompt marker/fence
format of line 287. -/
def render_context_format : List (String × String) → String
  | [] => ""
  | kv :: rest => renderBlock kv.1 kv.2 ++ render_context_format rest

/-- Character-list normal form of `renderBlock` followed by a tail. -/
def renderBlockL (k v : String) (tail : List Char) : List Char :=
  '*' :: '*' :: (k.toList ++ ('*' :: '*' :: ':' :: '\n' ::
    (fence3 ++ ('\n' :: (v.toList ++ ('\n' :: (fence3 ++ ('\n' :: '\n' :: tail))))))))

/-! ## Concrete environments and inputs used by the individual claims -/

/-- Completion interface that always answers with unparseable prose. -/
def proseEnv : Env := ⟨fun _ => .ok ("hello"), none⟩

/-- Completion interface whose database-files answer only repeats an
`app.py` the working mapping already holds. -/
def echoDbEnv : Env :=
  ⟨fun q =>
    if q = db_prompt ("vp") then
      .ok ("**app.py**:\n\x60\x60\x60\nfrom flask import x\n\x60\x60\x60")
    else .ok (""), none⟩

/-- Working mapping missing only the database files, whose `app.py`
matches `echoDbEnv`'s answer. -/
def echoDbFiles : List (String × String) :=
  [("index.html", "h"), ("main.js", "m"), ("style.css", "c"),
   ("app.py", "from flask import x")]

/-- Completion interface answering the initial generation prompt (the one
whose design brief asks for a "stunning" website) with a lone `app.py`
and raising on every targeted gap prompt. -/
def dbOnlyEnv : Env :=
  ⟨fun q =>
    if strIn ("stunning") q then
      .ok ("**app.py**:\n\x60\x60\x60\nfrom flask import a\n\x60\x60\x60")
    else .error ("boom"), none⟩

/-- The working mapping `dbOnlyEnv`'s initial answer parses to. -/
def dbOnlyFiles : List (String × String) :=
  [("app.py", "from flask import a")]

/-- Completion interface that would hand back a perfectly marked
`index.html` if it were ever asked. -/
def htmlEnv : Env :=
  ⟨fun _ => .ok ("**index.html**:\n\x60\x60\x60\n<html>hi</html>\n\x60\x60\x60"),
   none⟩

/-- Completion interface whose every call raises. -/
def raisingEnv : Env := ⟨fun _ => .error ("boom"), none⟩

/-- Completion interface whose every call returns empty text. -/
def emptyTextEnv : Env := ⟨fun _ => .ok (""), none⟩

/-- A mapping holding one healthy, long, framework-free `script.js`. -/
def healthyScriptFiles : List (String × String) :=
  [("script.js", fallback_script)]

/-! ## Supporting lemmas -/

theorem listStartsWith_append (pre t : List Char) :
    listStartsWith pre (pre ++ t) = true := by
  induction pre with
  | nil => rfl
  | cons c cs ih => simp [listStartsWith, ih]

theorem expectList_append (pre t : List Char) :
    expectList pre (pre ++ t) = some t := by
  simp [expectList, listStartsWith_append, List.drop_left]

theorem takeRun_not_head {p : Char → Bool} {c : Char} (h : p c = false)
    (t : List Char) : takeRun p (c :: t) = ([], c :: t) := by
  simp [takeRun, h]

theorem takeRun_append_run {p : Char → Bool} {a : List Char}
    (ha : ∀ c ∈ a, p c = true) {b : Char} (hb : p b = false) (t : List Char) :
    takeRun p (a ++ b :: t) = (a, b :: t) := by
  induction a with
  | nil => simpa using takeRun_not_head hb t
  | cons c cs ih =>
    have hc : p c = true := ha c (by simp)
    have ih' := ih (fun d hd => ha d (by simp [hd]))
    simp [takeRun, hc, ih']

theorem startsWith_fence_cons_false (v s : List Char)
    (h : listStartsWith fence3 v = false) :
    listStartsWith fence3 (v ++ '\n' :: s) = false := by
  match v with
  | [] => simp [fence3, listStartsWith]
  | [a] =>
    simp only [List.cons_append, List.nil_append, fence3, listStartsWith]
    simp
  | [a, b] =>
    simp only [List.cons_append, List.nil_append, fence3, listStartsWith]
    simp
  | a :: b :: c :: r =>
    simpa [fence3, listStartsWith] using h

theorem listHasSub_cons_false {n : List Char} {c : Char} {t : List Char}
    (h : listHasSub n (c :: t) = false) :
    listStartsWith n (c :: t) = false ∧ listHasSub n t = false := by
  rw [listHasSub] at h
  exact Bool.or_eq_false_iff.mp h

theorem hasSub_fence_startsWith_false {l : List Char}
    (h : listHasSub fence3 l = false) : listStartsWith fence3 l = false := by
  cases l with
  | nil => simpa [listHasSub] using h
  | cons c t => exact (listHasSub_cons_false h).1

theorem splitAtCloseFence_append (v s : List Char)
    (h : listHasSub fence3 v = false) :
    splitAtCloseFence (v ++ '\n' :: (fence3 ++ s)) = some (v, s) := by
  induction v with
  | nil =>
    have hhere : isCloseFenceHere ('\n' :: (fence3 ++ s)) = true := by
      simpa [isCloseFenceHere] using listStartsWith_append ('\n' :: fence3) s
    rw [List.nil_append, splitAtCloseFence.eq_def]
    simp only [hhere, if_true]
    simp [fence3]
  | cons c v' ih =>
    have h2 := (listHasSub_cons_false h).2
    have hs := startsWith_fence_cons_false v' (fence3 ++ s)
      (hasSub_fence_startsWith_false h2)
    have hnot : isCloseFenceHere (c :: (v' ++ '\n' :: (fence3 ++ s))) = false := by
      simp [isCloseFenceHere, listStartsWith, hs]
    rw [List.cons_append, splitAtCloseFence.eq_def]
    simp only [hnot, Bool.false_eq_true, if_false]
    rw [ih h2]

theorem matchFenceBlock_render (v : String) (tail : List Char)
    (hv : listHasSub fence3 v.toList = false) :
    matchFenceBlock (fence3 ++ ('\n' :: (v.toList ++ ('\n' :: (fence3 ++ tail))))) =
      some (v.toList, tail) := by
  have e1 := expectList_append fence3
    ('\n' :: (v.toList ++ ('\n' :: (fence3 ++ tail))))
  have e2 : takeRun isWordChar ('\n' :: (v.toList ++ ('\n' :: (fence3 ++ tail)))) =
      ([], '\n' :: (v.toList ++ ('\n' :: (fence3 ++ tail)))) :=
    takeRun_not_head (by decide) _
  rw [matchFenceBlock, e1]
  simp only [e2]
  simpa using splitAtCloseFence_append v.toList tail hv

theorem matchWsThenNl_render (rest : List Char) :
    matchWsThenNl ('\n' :: (fence3 ++ rest)) = some (fence3 ++ rest) := by
  have e : takeRun pyWS (['\n'] ++ '\x60' :: ('\x60' :: '\x60' :: rest)) =
      (['\n'], '\x60' :: ('\x60' :: '\x60' :: rest)) :=
    takeRun_append_run (by intro c hc; simp at hc; subst hc; decide) (by decide) _
  rw [matchWsThenNl]
  simp only [show ('\n' :: (fence3 ++ rest) : List Char) =
    ['\n'] ++ '\x60' :: ('\x60' :: '\x60' :: rest) from rfl, e]
  rfl

theorem p1At_renderBlockL (k v : String) (tail : List Char)
    (hk1 : k.toList ≠ [])
    (hk2 : ∀ c ∈ k.toList, isWordDotDash c = true)
    (hv : listHasSub fence3 v.toList = false) :
    p1At (renderBlockL k v tail) = some ((k.toList, v.toList), '\n' :: '\n' :: tail) := by
  have e1 : expectList twoStars (renderBlockL k v tail) =
      some (k.toList ++ ('*' :: ('*' :: ':' :: '\n' ::
        (fence3 ++ ('\n' :: (v.toList ++ ('\n' :: (fence3 ++ ('\n' :: '\n' :: tail))))))))) :=
    expectList_append twoStars _
  have e2 := takeRun_append_run (p := isWordDotDash) (a := k.toList) hk2
    (b := '*') (by decide)
    ('*' :: ':' :: '\n' ::
      (fence3 ++ ('\n' :: (v.toList ++ ('\n' :: (fence3 ++ ('\n' :: '\n' :: tail)))))))
  have e3 : expectList twoStars ('*' :: ('*' :: ':' :: '\n' ::
      (fence3 ++ ('\n' :: (v.toList ++ ('\n' :: (fence3 ++ ('\n' :: '\n' :: tail)))))))) =
      some (':' :: '\n' ::
        (fence3 ++ ('\n' :: (v.toList ++ ('\n' :: (fence3 ++ ('\n' :: '\n' :: tail))))))) :=
    expectList_append twoStars _
  have e4 := matchWsThenNl_render
    ('\n' :: (v.toList ++ ('\n' :: (fence3 ++ ('\n' :: '\n' :: tail)))))
  have e5 := matchFenceBlock_render v ('\n' :: '\n' :: tail) hv
  rw [p1At, e1]
  simp only []
  rw [show (k.toList ++ ('*' :: ('*' :: ':' :: '\n' ::
        (fence3 ++ ('\n' :: (v.toList ++ ('\n' :: (fence3 ++ ('\n' :: '\n' :: tail))))))))) =
      k.toList ++ '*' :: ('*' :: ':' :: '\n' ::
        (fence3 ++ ('\n' :: (v.toList ++ ('\n' :: (fence3 ++ ('\n' :: '\n' :: tail))))))) from rfl]
  rw [e2]
  simp only [List.isEmpty_eq_true, hk1, if_false]
  rw [e3]
  simp only [if_true]
  rw [e4]
  simp only [e5]

theorem p1At_cons_none {c : Char} (h : c ≠ '*') (l : List Char) :
    p1At (c :: l) = none := by
  have h' : ¬('*' = c) := fun e => h e.symm
  have hs : listStartsWith twoStars (c :: l) = false := by
    simp [twoStars, listStartsWith, h']
  rw [p1At]
  simp [expectList, hs]

theorem toList_renderBlock_append (k v : String) (t : List Char) :
    (renderBlock k v).toList ++ t = renderBlockL k v t := by
  simp only [renderBlock, renderBlockL, String.toList, String.data_append]
  simp [List.append_assoc, fence3]

theorem toList_render_cons (k v : String) (m : List (String × String)) :
    (render_context_format ((k, v) :: m)).toList =
      renderBlockL k v (render_context_format m).toList := by
  rw [render_context_format]
  rw [show (renderBlock k v ++ render_context_format m).toList =
    (renderBlock k v).toList ++ (render_context_format m).toList from
    String.data_append _ _]
  exact toList_renderBlock_append k v _

theorem renderBlockL_length_ge (k v : String) (t : List Char) :
    t.length + 3 ≤ (renderBlockL k v t).length := by
  simp [renderBlockL, fence3]
  omega

theorem findall_p1_render (m : List (String × String))
    (hm : ∀ kv ∈ m, kv.1.toList ≠ [] ∧ (∀ c ∈ kv.1.toList, isWordDotDash c = true) ∧
      listHasSub fence3 kv.2.toList = false) :
    ∀ n, (render_context_format m).toList.length ≤ n →
      findallAux p1At n (render_context_format m).toList =
        m.map (fun kv => (kv.1.toList, kv.2.toList)) := by
  induction m with
  | nil =>
    intro n _
    cases n <;> rfl
  | cons kv m' ih =>
    intro n hn
    obtain ⟨k, v⟩ := kv
    have hk := hm (k, v) (by simp)
    have hlen : (render_context_format m').toList.length + 3 ≤ n := by
      have h1 := renderBlockL_length_ge k v (render_context_format m').toList
      rw [toList_render_cons] at hn
      omega
    obtain ⟨n₃, rfl⟩ : ∃ n₃, n = n₃ + 3 := ⟨n - 3, by omega⟩
    rw [toList_render_cons]
    have hblock := p1At_renderBlockL k v (render_context_format m').toList
      hk.1 hk.2.1 hk.2.2
    rw [show renderBlockL k v (render_context_format m').toList =
      '*' :: ('*' :: (k.toList ++ ('*' :: '*' :: ':' :: '\n' ::
        (fence3 ++ ('\n' :: (v.toList ++ ('\n' :: (fence3 ++
          ('\n' :: '\n' :: (render_context_format m').toList))))))))) from rfl]
    rw [show n₃ + 3 = (n₃ + 2) + 1 from rfl, findallAux]
    rw [show ('*' :: ('*' :: (k.toList ++ ('*' :: '*' :: ':' :: '\n' ::
        (fence3 ++ ('\n' :: (v.toList ++ ('\n' :: (fence3 ++
          ('\n' :: '\n' :: (render_context_format m').toList)))))))))) =
      renderBlockL k v (render_context_format m').toList from rfl, hblock]
    simp only []
    rw [show n₃ + 2 = (n₃ + 1) + 1 from rfl, findallAux,
      p1At_cons_none (by decide) _]
    rw [show n₃ + 1 = n₃ + 1 from rfl, findallAux,
      p1At_cons_none (by decide) _]
    rw [ih (fun kv hkv => hm kv (by simp [hkv])) n₃ (by omega)]
    simp

theorem dictMem_append (a b : List (String × String)) (k : String) :
    dictMem (a ++ b) k = (dictMem a k || dictMem b k) := by
  simp [dictMem, List.any_append]

theorem dictInsert_of_not_mem {d : List (String × String)} {k : String}
    (h : dictMem d k = false) (v : String) : dictInsert d k v = d ++ [(k, v)] := by
  induction d with
  | nil => rfl
  | cons kv rest ih =>
    have h1 : ¬(kv.1 = k) := by
      intro e
      simp [dictMem, e] at h
    have h2 : dictMem rest k = false := by
      simp [dictMem] at h ⊢
      intro a b hab
      exact h.2 a b hab
    calc dictInsert (kv :: rest) k v
        = kv :: dictInsert rest k v := by
          rw [show (kv : String × String) = (kv.1, kv.2) from rfl, dictInsert]
          simp [h1]
      _ = kv :: (rest ++ [(k, v)]) := by rw [ih h2]
      _ = (kv :: rest) ++ [(k, v)] := rfl

theorem storeS1_go (m : List (String × String))
    (hm : ∀ kv ∈ m, kv.1 ≠ "" ∧ pyStrip kv.1 = kv.1 ∧ kv.2 ≠ "" ∧ pyStrip kv.2 = kv.2)
    (hnd : (m.map Prod.fst).Nodup) :
    ∀ acc, (∀ kv ∈ m, dictMem acc kv.1 = false) →
      (m.map (fun kv => (kv.1.toList, kv.2.toList))).foldl (fun fs pr =>
        let filename := String.mk pr.1
        let content := String.mk pr.2
        if filename ≠ "" ∧ pyStrip content ≠ "" then
          dictInsert fs (pyStrip filename) (pyStrip content)
        else fs) acc = acc ++ m := by
  induction m with
  | nil => intro acc _; simp
  | cons kv m' ih =>
    intro acc hdisj
    obtain ⟨k, v⟩ := kv
    have hk := hm (k, v) (by simp)
    obtain ⟨hk1, hk2, hk3, hk4⟩ := hk
    have step : (fun fs (pr : List Char × List Char) =>
        let filename := String.mk pr.1
        let content := String.mk pr.2
        if filename ≠ "" ∧ pyStrip content ≠ "" then
          dictInsert fs (pyStrip filename) (pyStrip content)
        else fs) acc (k.toList, v.toList) = acc ++ [(k, v)] := by
      show (if k ≠ "" ∧ pyStrip v ≠ "" then
          dictInsert acc (pyStrip k) (pyStrip v) else acc) = acc ++ [(k, v)]
      rw [if_pos ⟨hk1, hk4 ▸ hk3⟩, hk2, hk4]
      exact dictInsert_of_not_mem (hdisj (k, v) (by simp)) v
    simp only [List.map_cons, List.foldl_cons, step]
    rw [ih (fun kv hkv => hm kv (by simp [hkv])) (by simpa using hnd.of_cons)
      (acc ++ [(k, v)])]
    · simp
    · intro kv hkv
      rw [dictMem_append]
      have hd1 : dictMem acc kv.1 = false := hdisj kv (by simp [hkv])
      have hd2 : dictMem [(k, v)] kv.1 = false := by
        have hne : kv.1 ≠ k := by
          have := hnd
          simp at this
          intro e
          exact absurd (e ▸ List.mem_map_of_mem Prod.fst hkv) (by
            simpa [e] using this.1)
        simp [dictMem]
        exact fun e => hne e.symm
      simp [hd1, hd2]

theorem pyWS_cases {c : Char} (h : pyWS c = true) :
    c = ' ' ∨ c = '\t' ∨ c = '\n' ∨ c = '\r' ∨ c = '\x0b' ∨ c = '\x0c' := by
  simpa [pyWS, or_assoc] using h

theorem not_ws_of_wordDotDash {c : Char} (h : isWordDotDash c = true) :
    pyWS c = false := by
  by_contra hws
  have h' : pyWS c = true := by revert hws; cases pyWS c <;> simp
  rcases pyWS_cases h' with rfl | rfl | rfl | rfl | rfl | rfl <;>
    exact absurd h (by decide)

theorem dropWhile_eq_self_of_forall {p : Char → Bool} {l : List Char}
    (h : ∀ c ∈ l, p c = false) : l.dropWhile p = l := by
  cases l with
  | nil => rfl
  | cons c t => simp [List.dropWhile_cons, h c (by simp)]

theorem stripList_eq_self {l : List Char} (h : ∀ c ∈ l, pyWS c = false) :
    stripList l = l := by
  unfold stripList trimBack
  have h1 : l.reverse.dropWhile pyWS = l.reverse :=
    dropWhile_eq_self_of_forall (by
      intro c hc
      exact h c (List.mem_reverse.mp hc))
  rw [h1, List.reverse_reverse, dropWhile_eq_self_of_forall h]

theorem pyStrip_eq_self_of_wordDotDash {s : String}
    (h : ∀ c ∈ s.toList, isWordDotDash c = true) : pyStrip s = s := by
  unfold pyStrip
  rw [stripList_eq_self (fun c hc => not_ws_of_wordDotDash (h c hc))]
  rfl

theorem toList_ne_nil_of_ne {s : String} (h : s ≠ "") : s.toList ≠ [] := by
  intro e
  apply h
  cases s with
  | mk d =>
    cases e
    rfl

theorem strategy1Files_render (m : List (String × String))
    (hm : ∀ kv ∈ m, kv.1 ≠ "" ∧ (∀ c ∈ kv.1.toList, isWordDotDash c = true) ∧
      kv.2 ≠ "" ∧ pyStrip kv.2 = kv.2 ∧ listHasSub fence3 kv.2.toList = false) :
    (m.map Prod.fst).Nodup →
    strategy1Files (render_context_format m) = m := by
  intro hnd
  have hfind := findall_p1_render m (fun kv hkv =>
    ⟨toList_ne_nil_of_ne (hm kv hkv).1, (hm kv hkv).2.1, (hm kv hkv).2.2.2.2⟩)
    (render_context_format m).toList.length le_rfl
  have hmatches : strategy1Matches (render_context_format m) =
      m.map (fun kv => (kv.1.toList, kv.2.toList)) := by
    cases m with
    | nil => rfl
    | cons kv m' =>
      rw [strategy1Matches]
      simp only [hfind]
      rfl
  rw [strategy1Files, hmatches, storeS1]
  have := storeS1_go m (fun kv hkv =>
    ⟨(hm kv hkv).1,
     pyStrip_eq_self_of_wordDotDash ((hm kv hkv).2.1),
     (hm kv hkv).2.2.1, (hm kv hkv).2.2.2.1⟩) hnd []
    (fun kv _ => rfl)
  simpa using this

/-! ## Claim theorems -/

/-- C4 (amended): the round-trip law holds for the `**filename**:`
marker/fence format of the continuation prompt (line 287): rendering any
mapping whose filenames are non-empty `[\w.-]+` words and whose contents
are non-empty, strip-fixed and fence-free, then parsing, returns exactly
the original mapping. -/
theorem c4_roundtrip_amended (m : List (String × String))
    (hm : ∀ kv ∈ m, kv.1 ≠ "" ∧ (∀ c ∈ kv.1.toList, isWordDotDash c = true) ∧
      kv.2 ≠ "" ∧ pyStrip kv.2 = kv.2 ∧ listHasSub fence3 kv.2.toList = false)
    (hnd : (m.map Prod.fst).Nodup) :
    parse_gemini_response (render_context_format m) = m := by
  cases m with
  | nil => rfl
  | cons kv m' =>
    have hS1 := strategy1Files_render ((kv :: m')) hm hnd
    rw [parse_gemini_response, hS1]
    simp

/-- C4 counterexample: rendering `{"notes.txt": "hello"}` in the
`**filename:**` marker/fence format the initial generation prompt
actually requests (colon inside the asterisks) and parsing does NOT
return the original mapping — no strategy-1 pattern accepts the
colon-inside marker and strategy 2 only recognises the extensions
`html/css/js/py/sql/env`, so the content-sniffing fallback stores the
block as `file_1.txt`. -/
theorem c4_counterexample :
    parse_gemini_response (render_initial_format [("notes.txt", "hello")]) =
      [("file_1.txt", "hello")] ∧
    parse_gemini_response (render_initial_format [("notes.txt", "hello")]) ≠
      [("notes.txt", "hello")] := by
  constructor
  · rfl
  · decide

/-- C4 witness: the amended round trip applied to a concrete two-file
mapping. -/
theorem c4_roundtrip_witness :
    parse_gemini_response (render_context_format
      [("index.html", "<p>hi</p>"), ("style.css", "body q")]) =
      [("index.html", "<p>hi</p>"), ("style.css", "body q")] :=
  c4_roundtrip_amended _ (by decide) (by decide)

/-- C1 (code bug): the completeness validator's unconditional checks are
NOT just the HTML and CSS checks — `validate_generated_files` also
unconditionally requires a Vue component or `main.js`.  On the repo's own
test input (`tests/test_server.py` asserts this call is valid with no
missing entries) the code returns incomplete with the Vue requirement
reported missing. -/
theorem c1_validator_divergence :
    validate_generated_files
      [("index.html", "<!DOCTYPE html><html></html>"),
       ("style.css", "body \x7b margin: 0; \x7d")] false =
      (false, ["Vue.js component (App.vue) or main.js"]) := by decide

/-- C2 (confirmed): `is_data_driven_request` is a pure priority cascade
over case-insensitive keyword membership: any strong-tier keyword forces
`true` (even alongside static keywords); otherwise any static-tier
keyword forces `false`; otherwise with a weak-tier keyword the result is
exactly the presence of an interaction keyword; otherwise `false`. -/
theorem c2_classifier_cascade (prompt : String) :
    (anyKeywordIn strong_backend_keywords prompt = true →
      is_data_driven_request prompt = true) ∧
    (anyKeywordIn strong_backend_keywords prompt = false →
      anyKeywordIn static_indicators prompt = true →
      is_data_driven_request prompt = false) ∧
    (anyKeywordIn strong_backend_keywords prompt = false →
      anyKeywordIn static_indicators prompt = false →
      anyKeywordIn weak_backend_keywords prompt = true →
      is_data_driven_request prompt = anyKeywordIn interaction_keywords prompt) ∧
    (anyKeywordIn strong_backend_keywords prompt = false →
      anyKeywordIn static_indicators prompt = false →
      anyKeywordIn weak_backend_keywords prompt = false →
      is_data_driven_request prompt = false) := by
  refine ⟨?_, ?_, ?_, ?_⟩ <;> intros <;> simp [is_data_driven_request, *]

/-- C2 witness: the cascade theorem applied to the spec's four example
prompts. -/
theorem c2_classifier_witness :
    is_data_driven_request ("flower shop with orders") = true ∧
    is_data_driven_request ("simple landing page") = false ∧
    is_data_driven_request ("blog with user comments") = true ∧
    is_data_driven_request ("static portfolio website") = false := by
  refine ⟨(c2_classifier_cascade _).1 (by decide),
    (c2_classifier_cascade _).2.1 (by decide) (by decide), ?_,
    (c2_classifier_cascade _).2.1 (by decide) (by decide)⟩
  rw [(c2_classifier_cascade _).2.2.1 (by decide) (by decide) (by decide)]
  decide

/-- C5 counterexample: on `**a.html**:` followed by a whitespace-only
fenced block, convention 1 of strategy 1 yields a match, yet the final
mapping is produced by strategy 2 (the match's content trims to empty, so
strategy 1 stores nothing and the parser falls through) — so the first
matching convention does not alone determine the result. -/
theorem c5_counterexample :
    strategy1Matches ("**a.html**:\n```\n \n```") ≠ [] ∧
    strategy1Files ("**a.html**:\n```\n \n```") = [] ∧
    parse_gemini_response ("**a.html**:\n```\n \n```") = [("a.html", "")] := by
  refine ⟨by decide, by rfl, by rfl⟩

/-- C5 (amended): within strategy 1, the first pattern with at least one
match determines the stored matches (later conventions are never merged:
when pattern 1 matches anywhere, the strategy's matches are exactly
pattern 1's); and whenever strategy 1 stores at least one file, the
parser's result is exactly strategy 1's mapping — strategies 2 and 3
(bare code blocks included) contribute nothing.  The fall-through to
strategy 2 happens only when every match of the first matching convention
trims to empty content. -/
theorem c5_cascade_amended (text : String) :
    (findallAux p1At text.toList.length text.toList ≠ [] →
      strategy1Matches text = findallAux p1At text.toList.length text.toList) ∧
    (strategy1Files text ≠ [] →
      parse_gemini_response text = strategy1Files text) := by
  constructor
  · intro h
    cases hf : findallAux p1At text.toList.length text.toList with
    | nil => exact absurd hf h
    | cons a l =>
      rw [strategy1Matches]
      simp only [hf]
  · intro h
    have he : (strategy1Files text).isEmpty = false := by
      cases hs : strategy1Files text with
      | nil => exact absurd hs h
      | cons a l => rfl
    rw [parse_gemini_response]
    simp only [he, Bool.false_eq_true, if_false]

/-- C5 witness: the amended cascade-ordering theorem applied to a
concrete marked text. -/
theorem c5_cascade_witness :
    strategy1Matches ("**b.css**:\n```\nx\n```") =
      findallAux p1At ("**b.css**:\n```\nx\n```".toList.length)
        ("**b.css**:\n```\nx\n```".toList) ∧
    parse_gemini_response ("**b.css**:\n```\nx\n```") =
      strategy1Files ("**b.css**:\n```\nx\n```") :=
  ⟨(c5_cascade_amended _).1 (by decide), (c5_cascade_amended _).2 (by decide)⟩

theorem head?_dropWhile_false {p : Char → Bool} :
    ∀ {l : List Char} {c : Char}, (l.dropWhile p).head? = some c → p c = false := by
  intro l
  induction l with
  | nil => intro c h; simp at h
  | cons a t ih =>
    intro c h
    by_cases ha : p a
    · rw [List.dropWhile_cons_of_pos ha] at h
      exact ih h
    · rw [List.dropWhile_cons_of_neg ha] at h
      simp at h
      exact h ▸ Bool.eq_false_iff.mpr ha

theorem dropWhile_suffix_decomp {p : Char → Bool} (l : List Char) :
    ∃ pre, l = pre ++ l.dropWhile p := by
  induction l with
  | nil => exact ⟨[], rfl⟩
  | cons a t ih =>
    by_cases ha : p a
    · obtain ⟨pre, hpre⟩ := ih
      exact ⟨a :: pre, by rw [List.dropWhile_cons_of_pos ha, List.cons_append, ← hpre]⟩
    · exact ⟨[], by rw [List.dropWhile_cons_of_neg ha, List.nil_append]⟩

theorem getLast?_trimBack_false {l : List Char} {c : Char}
    (h : (trimBack l).getLast? = some c) : pyWS c = false := by
  unfold trimBack at h
  rw [List.getLast?_reverse] at h
  exact head?_dropWhile_false h

theorem dropWhile_eq_self_of_head {p : Char → Bool} {l : List Char}
    (h : ∀ c, l.head? = some c → p c = false) : l.dropWhile p = l := by
  cases l with
  | nil => rfl
  | cons a t =>
    exact List.dropWhile_cons_of_neg (by
      have := h a rfl
      simp [this])

theorem stripList_idem (l : List Char) : stripList (stripList l) = stripList l := by
  have hZlast : ∀ c, (stripList l).getLast? = some c → pyWS c = false := by
    intro c hc
    unfold stripList at hc
    obtain ⟨pre, hpre⟩ := dropWhile_suffix_decomp (p := pyWS) (trimBack l)
    cases hZ : (trimBack l).dropWhile pyWS with
    | nil => rw [hZ] at hc; simp at hc
    | cons a t =>
      have : (trimBack l).getLast? = some c := by
        conv_lhs => rw [hpre]
        rw [List.getLast?_append_of_ne_nil pre (by rw [hZ]; simp)]
        exact hc
      exact getLast?_trimBack_false this
  have htB : trimBack (stripList l) = stripList l := by
    unfold trimBack
    rw [dropWhile_eq_self_of_head (by
      intro c hc
      rw [List.head?_reverse] at hc
      exact hZlast c hc)]
    exact List.reverse_reverse _
  show stripList (stripList l) = stripList l
  conv_lhs => rw [stripList, htB]
  unfold stripList
  exact List.dropWhile_idempotent _ _

theorem pyStrip_idem (s : String) : pyStrip (pyStrip s) = pyStrip s := by
  unfold pyStrip
  rw [show (String.mk (stripList s.toList)).toList = stripList s.toList from rfl,
    stripList_idem]

theorem mem_dictInsert {kv : String × String} {d : List (String × String)}
    {k v : String} (h : kv ∈ dictInsert d k v) : kv ∈ d ∨ kv = (k, v) := by
  induction d with
  | nil => simpa [dictInsert] using h
  | cons kv' rest ih =>
    rw [show (kv' : String × String) = (kv'.1, kv'.2) from rfl, dictInsert] at h
    by_cases he : kv'.1 = k
    · simp only [he, if_true] at h
      rcases List.mem_cons.mp h with h1 | h1
      · exact Or.inr h1
      · exact Or.inl (List.mem_cons_of_mem _ h1)
    · simp only [he, if_false] at h
      rcases List.mem_cons.mp h with h1 | h1
      · exact Or.inl (by simp [h1])
      · rcases ih h1 with h2 | h2
        · exact Or.inl (List.mem_cons_of_mem _ h2)
        · exact Or.inr h2

theorem takeRun_all {p : Char → Bool} :
    ∀ (l : List Char), ∀ c ∈ (takeRun p l).1, p c = true := by
  intro l
  induction l with
  | nil => intro c hc; simp [takeRun] at hc
  | cons a t ih =>
    intro c hc
    by_cases ha : p a
    · rw [takeRun, if_pos ha] at hc
      rcases List.mem_cons.mp hc with h1 | h1
      · exact h1 ▸ ha
      · exact ih c h1
    · rw [takeRun, if_neg ha] at hc
      simp at hc

theorem fnExts_chars : ∀ e ∈ fnExts, ∀ c ∈ e, isWordDotDash c = true := by
  decide

theorem fnTryK_chars {run : List Char} (hrun : ∀ c ∈ run, isWordDotDash c = true) :
    ∀ k m, fnTryK run k = some m → ∀ c ∈ m, isWordDotDash c = true := by
  intro k
  induction k with
  | zero => intro m hm; simp [fnTryK] at hm
  | succ k ih =>
    intro m hm c hc
    rw [fnTryK] at hm
    by_cases hd : (run.drop (k + 1)).head? = some '.'
    · rw [if_pos hd] at hm
      cases hext : extHere (run.drop (k + 2)) with
      | none => rw [hext] at hm; exact ih m hm c hc
      | some e =>
        rw [hext] at hm
        have hm' : m = run.take (k + 1) ++ '.' :: e := by
          simpa using hm.symm
        subst hm'
        rcases List.mem_append.mp hc with h1 | h1
        · exact hrun c (List.mem_of_mem_take h1)
        · rcases List.mem_cons.mp h1 with h2 | h2
          · subst h2; decide
          · have he : e ∈ fnExts := List.mem_of_find?_eq_some hext
            exact fnExts_chars e he c h2
    · rw [if_neg hd] at hm
      exact ih m hm c hc

theorem fnMatchAt_chars {l m : List Char} (h : fnMatchAt l = some m) :
    ∀ c ∈ m, isWordDotDash c = true := by
  rw [fnMatchAt] at h
  by_cases he : (takeRun isWordDotDash l).1.isEmpty
  · rw [if_pos he] at h; simp at h
  · rw [if_neg he] at h
    exact fnTryK_chars (takeRun_all l) _ m h

theorem searchFilenameAux_chars :
    ∀ n l m, searchFilenameAux n l = some m → ∀ c ∈ m, isWordDotDash c = true := by
  intro n
  induction n with
  | zero => intro l m hm; simp [searchFilenameAux] at hm
  | succ n ih =>
    intro l m hm
    cases l with
    | nil => simp [searchFilenameAux] at hm
    | cons a t =>
      rw [searchFilenameAux] at hm
      cases hf : fnMatchAt (a :: t) with
      | some m' =>
        rw [hf] at hm
        have : m' = m := by simpa using hm
        exact this ▸ fnMatchAt_chars hf
      | none =>
        rw [hf] at hm
        exact ih t m hm

theorem storeS1_mem_prop :
    ∀ (ms : List (List Char × List Char)) (acc : List (String × String)),
      (∀ kv ∈ acc, kv.1 = pyStrip kv.1 ∧ kv.2 = pyStrip kv.2 ∧ kv.2 ≠ "") →
      ∀ kv ∈ ms.foldl (fun fs pr =>
        let filename := String.mk pr.1
        let content := String.mk pr.2
        if filename ≠ "" ∧ pyStrip content ≠ "" then
          dictInsert fs (pyStrip filename) (pyStrip content)
        else fs) acc,
      kv.1 = pyStrip kv.1 ∧ kv.2 = pyStrip kv.2 ∧ kv.2 ≠ "" := by
  intro ms
  induction ms with
  | nil =>
    intro acc hacc kv hkv
    exact hacc kv (by simpa using hkv)
  | cons pr ms' ih =>
    intro acc hacc kv hkv
    rw [List.foldl_cons] at hkv
    refine ih _ ?_ kv hkv
    intro kv' hkv'
    have hkv'' : kv' ∈ (if (String.mk pr.1 ≠ "" ∧ pyStrip (String.mk pr.2) ≠ "") then
        dictInsert acc (pyStrip (String.mk pr.1)) (pyStrip (String.mk pr.2))
      else acc) := hkv'
    by_cases hc : (String.mk pr.1 ≠ "" ∧ pyStrip (String.mk pr.2) ≠ "")
    · rw [if_pos hc] at hkv''
      rcases mem_dictInsert hkv'' with h1 | h1
      · exact hacc kv' h1
      · subst h1
        exact ⟨(pyStrip_idem _).symm, (pyStrip_idem _).symm, hc.2⟩
    · rw [if_neg hc] at hkv''
      exact hacc kv' hkv''

theorem strategy2_mem_prop :
    ∀ (secs : List (List Char)) (acc : List (String × String)),
      (∀ kv ∈ acc, kv.1 = pyStrip kv.1 ∧ kv.2 = pyStrip kv.2) →
      ∀ kv ∈ secs.foldl (fun fs sec =>
        let window := sec.take 50
        match searchFilenameAux window.length window with
        | none => fs
        | some fname =>
          match searchCodeBlockAux sec.length sec with
          | none => fs
          | some content =>
            dictInsert fs (String.mk fname) (pyStrip (String.mk content))) acc,
      kv.1 = pyStrip kv.1 ∧ kv.2 = pyStrip kv.2 := by
  intro secs
  induction secs with
  | nil =>
    intro acc hacc kv hkv
    exact hacc kv (by simpa using hkv)
  | cons sec secs' ih =>
    intro acc hacc kv hkv
    rw [List.foldl_cons] at hkv
    refine ih _ ?_ kv hkv
    intro kv' hkv'
    have hkv'' : kv' ∈ (match searchFilenameAux (sec.take 50).length (sec.take 50) with
      | none => acc
      | some fname =>
        match searchCodeBlockAux sec.length sec with
        | none => acc
        | some content =>
          dictInsert acc (String.mk fname) (pyStrip (String.mk content))) := hkv'
    cases hf : searchFilenameAux (sec.take 50).length (sec.take 50) with
    | none =>
      rw [hf] at hkv''
      exact hacc kv' hkv''
    | some fname =>
      rw [hf] at hkv''
      cases hcb : searchCodeBlockAux sec.length sec with
      | none =>
        rw [hcb] at hkv''
        exact hacc kv' hkv''
      | some content =>
        rw [hcb] at hkv''
        rcases mem_dictInsert hkv'' with h1 | h1
        · exact hacc kv' h1
        · subst h1
          constructor
          · exact (pyStrip_eq_self_of_wordDotDash
              (fun c hc => searchFilenameAux_chars _ _ _ hf c hc)).symm
          · exact (pyStrip_idem _).symm

/-- C6 (amended): strategy 1 stores only trimmed filenames and trimmed,
non-empty contents; strategy 2 stores trimmed filenames and trimmed
contents but — contrary to the claim — does not discard content that is
empty after trimming. -/
theorem c6_trim_amended (text : String) :
    (∀ kv ∈ strategy1Files text,
      kv.1 = pyStrip kv.1 ∧ kv.2 = pyStrip kv.2 ∧ kv.2 ≠ "") ∧
    (∀ kv ∈ strategy2Add [] text, kv.1 = pyStrip kv.1 ∧ kv.2 = pyStrip kv.2) := by
  constructor
  · intro kv hkv
    exact storeS1_mem_prop (strategy1Matches text) [] (by intro kv' h; simp at h)
      kv hkv
  · intro kv hkv
    exact strategy2_mem_prop (splitSections text.toList) [] (by intro kv' h; simp at h)
      kv hkv

/-- C6 counterexample: strategy 2 stores an empty-string content — the
section `see a.html` with a whitespace-only code block produces the
mapping entry `("a.html", "")`, which the claim says strategies 1–2 never
store. -/
theorem c6_counterexample :
    parse_gemini_response ("see a.html\n```\n \n```") = [("a.html", "")] ∧
    strategy2Add [] "see a.html\n```\n \n```" = [("a.html", "")] := ⟨rfl, rfl⟩

/-- C6 witness: the amended trimming theorem applied to concrete
strategy-1 and strategy-2 inputs. -/
theorem c6_trim_witness :
    (("x.css", "body") ∈ strategy1Files ("**x.css**:\n```\nbody\n```") ∧
      "x.css" = pyStrip ("x.css") ∧ "body" = pyStrip ("body") ∧ ("body" : String) ≠ "") ∧
    (("b.css", "zz") ∈ strategy2Add [] "b.css file\n```\nzz\n```" ∧
      "b.css" = pyStrip ("b.css") ∧ "zz" = pyStrip ("zz")) :=
  ⟨⟨by decide, (c6_trim_amended ("**x.css**:\n\x60\x60\x60\nbody\n\x60\x60\x60")).1
      ("x.css", "body") (by decide)⟩,
   ⟨by decide, (c6_trim_amended ("b.css file\n\x60\x60\x60\nzz\n\x60\x60\x60")).2
      ("b.css", "zz") (by decide)⟩⟩

/-- C3 counterexample: a non-empty, exception-free response (`"hello"`)
in which the parser finds zero files does NOT make `create_website`
fatal: the finalization fallback synthesizes `index.html`, `App.vue` and
`main.js` and the run returns a success result listing them. -/
theorem c3_counterexample :
    parse_gemini_response ("hello") = [] ∧
    create_website proseEnv ("simple landing page") =
      .files ["index.html", "App.vue", "main.js"] := ⟨rfl, rfl⟩

/-- C3 (amended): when the parser finds zero files in an
otherwise-successful initial response, the run is NOT fatal — downstream
processing proceeds: for a frontend-only run the finalization fallback
fires (no `script.js` in an empty mapping), synthesizes the static site
plus framework skeleton, and `create_website` returns a success result
with exactly those three files; the empty-mapping error return of line
1186 is unreachable because the fallback always repopulates the
mapping. -/
theorem c3_empty_parse_not_fatal (env : Env) (prompt t : String)
    (hw : env.writeFail = none)
    (hc : env.complete (initial_prompt prompt) = .ok t)
    (ht : t ≠ "")
    (hp : parse_gemini_response t = [])
    (hb : is_data_driven_request prompt = false) :
    create_website env prompt = .files ["index.html", "App.vue", "main.js"] := by
  rw [create_website, hb, hc]
  simp only []
  rw [if_neg ht, hp, hw]
  rfl

/-- C3 witness: the amended theorem applied to a concrete environment
whose every completion answer is unparseable prose. -/
theorem c3_not_fatal_witness :
    create_website ⟨fun _ => .ok ("just words"), none⟩ "simple landing page" =
      .files ["index.html", "App.vue", "main.js"] :=
  c3_empty_parse_not_fatal _ _ ("just words") rfl rfl (by decide) (by rfl) (by decide)

/-- C9 (confirmed): if the initial completion call raises or returns
empty text, `create_website` returns the corresponding error result and
nothing is written to the output directory — no file writes precede the
initial completion call. -/
theorem c9_initial_failure_atomic (env : Env) (prompt : String) :
    (∀ e, env.complete (initial_prompt prompt) = .error e →
      create_website env prompt = .error ("Gemini AI generation failed: " ++ e) ∧
      createWebsiteWritten env prompt = []) ∧
    (env.complete (initial_prompt prompt) = .ok ("") →
      create_website env prompt =
        .error ("No response received from Gemini AI. Please try again.") ∧
      createWebsiteWritten env prompt = []) := by
  constructor
  · intro e he
    constructor
    · rw [create_website, he]
    · rw [createWebsiteWritten, he]
  · intro h0
    constructor
    · rw [create_website, h0]
      rfl
    · rw [createWebsiteWritten, h0]
      rfl

/-- C9 witness: the atomic-failure theorem applied to a raising
environment and to an empty-text environment. -/
theorem c9_witness :
    create_website raisingEnv ("p") = .error ("Gemini AI generation failed: boom") ∧
    createWebsiteWritten raisingEnv ("p") = [] ∧
    create_website emptyTextEnv ("p") =
      .error ("No response received from Gemini AI. Please try again.") ∧
    createWebsiteWritten emptyTextEnv ("p") = [] :=
  ⟨((c9_initial_failure_atomic raisingEnv ("p")).1 ("boom") rfl).1,
   ((c9_initial_failure_atomic raisingEnv ("p")).1 ("boom") rfl).2,
   ((c9_initial_failure_atomic emptyTextEnv ("p")).2 rfl).1,
   ((c9_initial_failure_atomic emptyTextEnv ("p")).2 rfl).2⟩

theorem dictGet?_insert (d : List (String × String)) (k v k' : String) :
    dictGet? (dictInsert d k v) k' = if k = k' then some v else dictGet? d k' := by
  induction d with
  | nil =>
    by_cases h : k = k' <;> simp [dictInsert, dictGet?, List.find?, h]
  | cons kv rest ih =>
    rw [show (kv : String × String) = (kv.1, kv.2) from rfl, dictInsert]
    by_cases ha : kv.1 = k
    · rw [if_pos ha]
      by_cases h : k = k'
      · simp [dictGet?, List.find?, h]
      · subst ha
        simp [dictGet?, List.find?, h]
    · rw [if_neg ha]
      by_cases hb : kv.1 = k'
      · have h : ¬(k = k') := fun e => ha (e ▸ hb)
        simp [dictGet?, List.find?, hb, h]
      · simp only [dictGet?, List.find?] at ih ⊢
        simp [hb]
        exact ih

theorem dictGet?_eq_none_of_not_mem {d : List (String × String)} {k : String}
    (h : dictMem d k = false) : dictGet? d k = none := by
  rw [dictGet?, List.find?_eq_none.mpr]
  · rfl
  · intro kv hkv
    simp [dictMem, List.any_eq_false] at h
    simpa using h kv.1 kv.2 (by simpa using hkv)

theorem dictMem_of_get?_some {d : List (String × String)} {k v : String}
    (h : dictGet? d k = some v) : dictMem d k = true := by
  rw [dictGet?] at h
  cases hf : d.find? (fun kv => kv.1 = k) with
  | none => rw [hf] at h; simp at h
  | some kv =>
    have hm := List.mem_of_find?_eq_some hf
    have hp := List.find?_some hf
    simp at hp
    rw [dictMem, List.any_eq_true]
    exact ⟨kv, hm, by simpa using hp⟩

/-- C10 (confirmed): whenever the finalization fallback condition holds
(broken-Vue markers, missing `script.js`, or `script.js` shorter than 200
characters), `finalize` overwrites `index.html` with the synthesized
static HTML and stores `App.vue` and `main.js`, the stored `main.js`
containing a `createApp` call, while never adding a `script.js`; and when
the condition fails, the mapping passes through unchanged, contains no
`App.vue`, and any `main.js` it holds is `createApp`-free — so the
framework-skeleton files appear exactly when the fallback fires. -/
theorem c10_fallback_characterization (prompt : String)
    (files : List (String × String)) :
    (fallbackCond files = true →
      dictGet? (finalize prompt files) ("index.html") = some (synthSiteFor prompt) ∧
      dictGet? (finalize prompt files) ("App.vue") = some appVueContent ∧
      dictGet? (finalize prompt files) ("main.js") = some mainJsContent ∧
      strIn ("createApp") mainJsContent = true ∧
      dictGet? (finalize prompt files) ("script.js") = dictGet? files ("script.js")) ∧
    (fallbackCond files = false →
      finalize prompt files = files ∧
      dictGet? files ("App.vue") = none ∧
      (∀ c, dictGet? files ("main.js") = some c →
        strIn ("createApp") c = false)) := by
  constructor
  · intro h
    rw [finalize, if_pos h]
    refine ⟨?_, ?_, ?_, by decide, ?_⟩
    · rw [dictGet?_insert, if_neg (by decide), dictGet?_insert, if_neg (by decide),
        dictGet?_insert, if_pos rfl]
    · rw [dictGet?_insert, if_neg (by decide), dictGet?_insert, if_pos rfl]
    · rw [dictGet?_insert, if_pos rfl]
    · rw [dictGet?_insert, if_neg (by decide), dictGet?_insert, if_neg (by decide),
        dictGet?_insert, if_neg (by decide)]
  · intro h
    rw [fallbackCond] at h
    have h1 : has_broken_vue files = false :=
      (Bool.or_eq_false_iff.mp ((Bool.or_eq_false_iff.mp h).1)).1
    have h2 : (!dictMem files ("script.js")) = false :=
      (Bool.or_eq_false_iff.mp ((Bool.or_eq_false_iff.mp h).1)).2
    have h3 : decide ((dictGetD files ("script.js") "").length < 200) = false :=
      (Bool.or_eq_false_iff.mp h).2
    rw [has_broken_vue] at h1
    have hApp : dictMem files ("App.vue") = false :=
      (Bool.or_eq_false_iff.mp ((Bool.or_eq_false_iff.mp h1).1)).2
    have hMain : (dictMem files ("main.js") &&
        (strIn ("createApp") (dictGetD files ("main.js") "") ||
          strIn ("Vue") (dictGetD files ("main.js") ""))) = false :=
      (Bool.or_eq_false_iff.mp ((Bool.or_eq_false_iff.mp h1).1)).1
    refine ⟨?_, dictGet?_eq_none_of_not_mem hApp, ?_⟩
    · rw [finalize, if_neg (by rw [fallbackCond, h]; simp)]
      rw [if_neg (by
        rw [h3]
        simp)]
    · intro c hc
      have hmem := dictMem_of_get?_some hc
      have hd : dictGetD files ("main.js") "" = c := by
        rw [dictGetD, hc]
        rfl
      rw [hmem] at hMain
      simp only [Bool.true_and] at hMain
      rw [hd] at hMain
      exact (Bool.or_eq_false_iff.mp hMain).1

set_option maxRecDepth 16384 in
/-- C10 witness: the fallback characterization applied to the empty
mapping (condition holds) and to a mapping with one healthy long
`script.js` (condition fails). -/
theorem c10_fallback_witness :
    (fallbackCond [] = true ∧
      dictGet? (finalize ("w") []) ("App.vue") = some appVueContent ∧
      dictGet? (finalize ("w") []) ("main.js") = some mainJsContent ∧
      strIn ("createApp") mainJsContent = true ∧
      dictGet? (finalize ("w") []) ("script.js") = none) ∧
    (fallbackCond healthyScriptFiles = false ∧
      finalize ("w") healthyScriptFiles = healthyScriptFiles ∧
      dictGet? healthyScriptFiles ("App.vue") = none) := by
  have h1 := (c10_fallback_characterization ("w") []).1 (by decide)
  have h2 := (c10_fallback_characterization ("w") healthyScriptFiles).2 (by rfl)
  exact ⟨⟨by decide, h1.2.1, h1.2.2.1, h1.2.2.2.1, h1.2.2.2.2⟩,
    ⟨by rfl, h2.1, h2.2.1⟩⟩

theorem dictInsert_isEmpty_false (d : List (String × String)) (k v : String) :
    (dictInsert d k v).isEmpty = false := by
  cases d with
  | nil => rfl
  | cons kv rest =>
    rw [show (kv : String × String) = (kv.1, kv.2) from rfl, dictInsert]
    by_cases h : kv.1 = k <;> simp [h]

theorem dictMem_isEmpty_false {d : List (String × String)} {k : String}
    (h : dictMem d k = true) : d.isEmpty = false := by
  cases d with
  | nil => simp [dictMem] at h
  | cons kv rest => rfl

theorem finalize_isEmpty_false (p : String) (fs : List (String × String)) :
    (finalize p fs).isEmpty = false := by
  rw [finalize]
  by_cases h : fallbackCond fs
  · rw [if_pos h]
    exact dictInsert_isEmpty_false _ _ _
  · rw [if_neg h]
    by_cases h2 : (dictMem fs ("script.js") &&
        decide ((dictGetD fs ("script.js") "").length < 200)) = true
    · rw [if_pos h2]
      exact dictInsert_isEmpty_false _ _ _
    · rw [if_neg h2]
      have hb : fallbackCond fs = false := by
        revert h
        cases fallbackCond fs <;> simp
      have hmem : dictMem fs ("script.js") = true := by
        rw [fallbackCond] at hb
        have := (Bool.or_eq_false_iff.mp ((Bool.or_eq_false_iff.mp hb).1)).2
        revert this
        cases dictMem fs ("script.js") <;> simp
      exact dictMem_isEmpty_false hmem

theorem gapRounds_le (env : Env) (prompt : String) :
    ∀ n (files : List (String × String)), gapRounds env prompt n files ≤ n := by
  intro n
  induction n with
  | zero => intro files; exact le_rfl
  | succ n ih =>
    intro files
    rw [gapRounds]
    by_cases h1 : (validate_generated_files files true).1
    · simp only [h1, if_true]
      omega
    · simp only [h1, Bool.false_eq_true, if_false]
      by_cases h2 : (generate_missing_files env prompt files
          (validate_generated_files files true).2).isEmpty
      · simp only [h2, if_true]
        omega
      · simp only [h2, Bool.false_eq_true, if_false]
        have := ih (dictUpdate files (generate_missing_files env prompt files
          (validate_generated_files files true).2))
        omega

set_option maxRecDepth 200000 in
/-- C7 counterexample: a gap-filling round that adds no new files to the
working mapping does NOT terminate the loop — when the model's
database-files answer merely repeats the `app.py` already present, the
round returns a non-empty mapping whose merge leaves the working mapping
unchanged, and the loop still runs all 3 rounds instead of stopping after
the first. -/
theorem c7_counterexample :
    validate_generated_files echoDbFiles true =
      (false, ["Database files (database.py or schema.sql)"]) ∧
    generate_missing_files echoDbEnv ("vp") echoDbFiles
      ["Database files (database.py or schema.sql)"] ≠ [] ∧
    dictUpdate echoDbFiles (generate_missing_files echoDbEnv ("vp") echoDbFiles
      ["Database files (database.py or schema.sql)"]) = echoDbFiles ∧
    gapRounds echoDbEnv ("vp") 3 echoDbFiles = 3 := by
  refine ⟨by decide, by decide, by decide, by decide⟩

/-- C7 (amended): gap-filling is bounded by 3 rounds; a round whose
`generate_missing_files` returns an EMPTY mapping (not merely one adding
no new files) terminates the loop immediately after that single round;
and once the initial call succeeds with non-empty text, a
backend-required run always proceeds through finalization to a non-error
result, whatever requirements remain missing. -/
theorem c7_bounded_gapfill (env : Env) (prompt : String)
    (files : List (String × String)) :
    gapRounds env prompt 3 files ≤ 3 ∧
    ((validate_generated_files files true).1 = false →
      generate_missing_files env prompt files
        (validate_generated_files files true).2 = [] →
      gapFill env prompt 3 files = files ∧ gapRounds env prompt 3 files = 1) ∧
    (∀ t, env.writeFail = none →
      env.complete (initial_prompt prompt) = .ok t → t ≠ "" →
      is_data_driven_request prompt = true →
      ∃ ns, create_website env prompt = .files ns) := by
  refine ⟨gapRounds_le env prompt 3 files, ?_, ?_⟩
  · intro h1 h2
    constructor
    · rw [show (3 : Nat) = 2 + 1 from rfl, gapFill]
      simp only [h1, Bool.false_eq_true, if_false, h2, List.isEmpty_nil, if_true]
    · rw [show (3 : Nat) = 2 + 1 from rfl, gapRounds]
      simp only [h1, Bool.false_eq_true, if_false, h2, List.isEmpty_nil, if_true]
  · intro t hw hc ht hb
    refine ⟨(finalize prompt (gapFill env prompt 3
      (parse_gemini_response t))).map Prod.fst, ?_⟩
    rw [create_website, hb, hc]
    simp only []
    rw [if_neg ht, hw, finalize_isEmpty_false]
    simp

set_option maxRecDepth 4096 in
/-- C7 witness: the bounded-gap-filling theorem applied to a concrete
backend-required run whose targeted gap calls all raise. -/
theorem c7_bounded_witness :
    gapRounds dbOnlyEnv ("database app") 3 dbOnlyFiles ≤ 3 ∧
    (gapFill dbOnlyEnv ("database app") 3 dbOnlyFiles = dbOnlyFiles ∧
      gapRounds dbOnlyEnv ("database app") 3 dbOnlyFiles = 1) ∧
    (∃ ns, create_website dbOnlyEnv ("database app") = .files ns) := by
  have hthm := c7_bounded_gapfill dbOnlyEnv ("database app") dbOnlyFiles
  have hc : dbOnlyEnv.complete (initial_prompt ("database app")) =
      .ok ("**app.py**:\n\x60\x60\x60\nfrom flask import a\n\x60\x60\x60") := by
    show (if strIn ("stunning") (initial_prompt ("database app")) = true then
        (Except.ok ("**app.py**:\n\x60\x60\x60\nfrom flask import a\n\x60\x60\x60") :
          Except String String)
      else .error ("boom")) =
      .ok ("**app.py**:\n\x60\x60\x60\nfrom flask import a\n\x60\x60\x60")
    rw [if_pos (by decide)]
  exact ⟨hthm.1, hthm.2.1 (by decide) (by decide),
    hthm.2.2 ("**app.py**:\n\x60\x60\x60\nfrom flask import a\n\x60\x60\x60")
      rfl hc (by decide) (by decide)⟩

theorem dictGet?_eq_none_of_not_keys {e : List (String × String)} {k : String}
    (h : k ∉ e.map Prod.fst) : dictGet? e k = none := by
  rw [dictGet?, List.find?_eq_none.mpr]
  · rfl
  · intro kv hkv
    simp only [decide_eq_true_eq]
    intro e1
    exact h (e1 ▸ List.mem_map_of_mem Prod.fst hkv)

theorem dictGet?_update :
    ∀ (e d : List (String × String)) (k : String), (e.map Prod.fst).Nodup →
      dictGet? (dictUpdate d e) k =
        (match dictGet? e k with
         | some v => some v
         | none => dictGet? d k) := by
  intro e
  induction e with
  | nil =>
    intro d k _
    simp [dictUpdate, dictGet?, List.find?]
  | cons kv e' ih =>
    intro d k hnd
    rw [show dictUpdate d (kv :: e') = dictUpdate (dictInsert d kv.1 kv.2) e' from rfl]
    rw [ih _ k (by simpa using hnd.of_cons)]
    by_cases hk : kv.1 = k
    · have hkey : k ∉ e'.map Prod.fst := by
        have h' := (List.nodup_cons.mp
          (show (kv.1 :: e'.map Prod.fst).Nodup from hnd)).1
        exact hk ▸ h'
      rw [dictGet?_eq_none_of_not_keys hkey, dictGet?_insert, if_pos hk]
      simp [dictGet?, List.find?, hk]
    · rw [dictGet?_insert, if_neg hk]
      have h2 : dictGet? (kv :: e') k = dictGet? e' k := by
        rw [show (kv : String × String) = (kv.1, kv.2) from rfl]
        simp [dictGet?, List.find?, hk]
      rw [h2]

/-- C8 counterexample: `HTML file` and `CSS file` are labels the
validator reports missing, yet `generate_missing_files` performs zero
completion calls and generates nothing for them — even against a model
that would answer with a perfect `index.html`. -/
theorem c8_counterexample :
    "HTML file" ∈ (validate_generated_files [] true).2 ∧
    "CSS file" ∈ (validate_generated_files [] true).2 ∧
    generate_missing_files htmlEnv ("p") [] ["HTML file", "CSS file"] = [] ∧
    gmfCalls ["HTML file", "CSS file"] = 0 := by decide

/-- C8 (amended): in a gap-filling round only the requirement labels
containing `Flask backend`, `Database files`, `script.js`/`JavaScript`
or `.env.example` are handled; the validator's frontend labels (`HTML
file`, `CSS file`, `Vue.js component (App.vue) or main.js`) are skipped
with no completion call and no generated file; each handled Flask or
Database label costs exactly one completion call; and merging into the
working mapping adds new filenames and overwrites existing ones. -/
theorem c8_targeted_generation (env : Env) (prompt : String)
    (acc : List (String × String)) :
    (∀ label ∈ (["HTML file", "CSS file",
        "Vue.js component (App.vue) or main.js"] : List String),
      genOne env prompt label acc = acc ∧ gmfCallsOne label = 0) ∧
    gmfCallsOne ("Flask backend (app.py)") = 1 ∧
    gmfCallsOne ("Database files (database.py or schema.sql)") = 1 ∧
    (∀ (d e : List (String × String)) (k : String),
      (e.map Prod.fst).Nodup →
      dictGet? (dictUpdate d e) k =
        (match dictGet? e k with
         | some v => some v
         | none => dictGet? d k)) := by
  refine ⟨?_, by decide, by decide, fun d e k hnd => dictGet?_update e d k hnd⟩
  intro label hl
  simp only [List.mem_cons, List.not_mem_nil, or_false] at hl
  rcases hl with rfl | rfl | rfl <;> exact ⟨rfl, rfl⟩

/-- C8 witness: the targeted-generation theorem applied to a concrete
skipped label and a concrete overwrite-merge. -/
theorem c8_targeted_witness :
    (genOne htmlEnv ("q") "HTML file" [("a", "1")] = [("a", "1")] ∧
      gmfCallsOne ("HTML file") = 0) ∧
    dictGet? (dictUpdate [("a", "1"), ("b", "2")] [("b", "9"), ("c", "3")]) "b" =
      (match dictGet? [("b", "9"), ("c", "3")] "b" with
       | some v => some v
       | none => dictGet? [("a", "1"), ("b", "2")] "b") :=
  ⟨(c8_targeted_generation htmlEnv ("q") [("a", "1")]).1 ("HTML file") (by decide),
   (c8_targeted_generation htmlEnv ("q") []).2.2.2
     [("a", "1"), ("b", "2")] [("b", "9"), ("c", "3")] ("b") (by decide)⟩
